import Mathlib

/-! # The email-workflow chat client (`static/app.js`)

A shallow embedding of the browser script: the three page helpers
(`addBubble`, `setStatus`, `formatFinal`), the click handler of the send
button and the three listeners it registers on the event stream.

Conventions of the embedding.

* A JavaScript value is a `JsVal`: what `JSON.parse` can return, plus
  `undefined` (the result of reading a property that is not there). A
  number is given by its value, an integer `n` or a decimal fraction
  `mantissa * 10 ^ exponent`; it is printed as `Number::toString` prints
  the nearest IEEE 754 double (`numberToString`).
* An evaluation that can throw returns `Except Fault`. `Fault.outside` is
  not a JavaScript exception: it marks an evaluation that this embedding
  does not cover, which is `Math.min` applied to a progress whose numeric
  value is not an integer (a fraction, a string, an array, an object).
  Printing a value never gives it (`toStr_ne_outside`), and no result
  below is drawn from it.
* Host functions (`JSON.parse`, `fetch`, the dispatch of events by
  `EventSource`) are not part of the script; their outcome is an input of
  the handlers, and the dispatch rule of a closed stream is `deliver`.
-/

namespace ChatClient

/-! ## Values -/

/-- Ways an evaluation stops without a value. -/
inductive Fault where
  /-- A `TypeError`: property read on `null` or `undefined`, call of a
  value that is not a function, conversion of an object to a primitive. -/
  | typeError
  /-- A `SyntaxError` of `JSON.parse`. -/
  | syntaxError
  /-- Not an exception: the evaluation leaves the fragment embedded here. -/
  | outside
  deriving DecidableEq, Repr

deriving instance DecidableEq for Except

/-! ## Numbers

A number reaches the script as an IEEE 754 double. The functions below
compute, with exact integer arithmetic, the double nearest to a decimal
numeral and the text `Number::toString` gives for it: the shortest decimal
numeral that denotes the same double, laid out as the language
specification prescribes. -/

/-- The fraction `a / b * 10 ^ p` as a pair of naturals (numerator and
denominator). -/
def scale10 (a b : Nat) (p : Int) : Nat × Nat :=
  match p with
  | .ofNat k => (a * 10 ^ k, b)
  | .negSucc k => (a, b * 10 ^ (k + 1))

/-- The fraction `a / b * 2 ^ p` as a pair of naturals. -/
def scale2 (a b : Nat) (p : Int) : Nat × Nat :=
  match p with
  | .ofNat k => (a * 2 ^ k, b)
  | .negSucc k => (a, b * 2 ^ (k + 1))

/-- Binary logarithm, rounded down, by halving at most `fuel` times. -/
def log2Fuel : Nat → Nat → Nat
  | 0, _ => 0
  | fuel + 1, n => if n < 2 then 0 else log2Fuel fuel (n / 2) + 1

/-- The binary logarithm of a positive natural, rounded down. -/
def log2 (n : Nat) : Nat :=
  log2Fuel n n

/-- The integer nearest to `a / b`, the even one of two at equal distance. -/
def roundHalfEven (a b : Nat) : Nat :=
  let q := a / b
  let r := a % b
  if 2 * r < b then q
  else if b < 2 * r then q + 1
  else if q % 2 = 0 then q else q + 1

/-- The Number value of the positive fraction `a / b`: the nearest IEEE 754
double, ties to even, as `mantissa * 2 ^ exponent` with the mantissa below
`2 ^ 53` and the exponent at least `-1074`; `none` stands for `Infinity`. -/
def roundToDouble (a b : Nat) : Option (Nat × Int) :=
  let l : Int := (log2 a : Int) - (log2 b : Int)
  let below := scale2 a b (-l)
  let floorLog : Int := if below.2 ≤ below.1 then l else l - 1
  let exponent : Int := max (floorLog - 52) (-1074)
  let scaled := scale2 a b (-exponent)
  let mantissa := roundHalfEven scaled.1 scaled.2
  let result : Nat × Int :=
    if mantissa = 2 ^ 53 then (2 ^ 52, exponent + 1) else (mantissa, exponent)
  if 971 < result.2 then none else some result

/-- Search for the shortest decimal numeral that denotes a double: for
`k = 1, 2, ...` digits, the two `k`-digit neighbours of `x = a / b` on the
grid `10 ^ (n - k)` are tried; the result is the chosen integer and the
power of ten it is scaled by. -/
def shortestFrom (target : Nat × Int) (a b : Nat) (n : Int) : Nat → Nat → Nat × Int
  | 0, k => ((scale10 a b (k - n)).1 / (scale10 a b (k - n)).2, n - k)
  | fuel + 1, k =>
    let p : Int := n - k
    let t := scale10 a b (-p)
    let lo := t.1 / t.2
    let r := t.1 % t.2
    let okLo := roundToDouble (scale10 lo 1 p).1 (scale10 lo 1 p).2 == some target
    let okHi := roundToDouble (scale10 (lo + 1) 1 p).1 (scale10 (lo + 1) 1 p).2 == some target
    if okLo && okHi then
      if 2 * r < t.2 then (lo, p)
      else if t.2 < 2 * r then (lo + 1, p)
      else if lo % 2 = 0 then (lo, p) else (lo + 1, p)
    else if okLo then (lo, p)
    else if okHi then (lo + 1, p)
    else shortestFrom target a b n fuel (k + 1)

/-- The decimal exponent `n` of the positive fraction `a / b`: the least
`n` among `est - 1, ..., est + 3` with `a / b < 10 ^ n`. -/
def decimalExponent (a b : Nat) (est : Int) : Int :=
  let below (j : Int) : Bool := (scale10 a b (-j)).1 < (scale10 a b (-j)).2
  if below (est - 1) then est - 1
  else if below est then est
  else if below (est + 1) then est + 1
  else if below (est + 2) then est + 2
  else est + 3

/-- Removes the zeros at the end of a list of digits. -/
def stripZeros (digits : List Char) : List Char :=
  (digits.reverse.dropWhile (· == '0')).reverse

/-- The text of `Number::toString` for the digits `digits` (without
trailing zeros) of a numeral whose decimal point stands after `n`
digits. -/
def layout (digits : List Char) (n : Int) : String :=
  let k : Int := digits.length
  if k ≤ n ∧ n ≤ 21 then
    String.mk (digits ++ List.replicate (n - k).toNat '0')
  else if 0 < n ∧ n ≤ 21 then
    String.mk (digits.take n.toNat ++ '.' :: digits.drop n.toNat)
  else if -6 < n ∧ n ≤ 0 then
    String.mk ('0' :: '.' :: (List.replicate (-n).toNat '0' ++ digits))
  else
    let sign := if 0 ≤ n - 1 then "+" else "-"
    let power := toString (n - 1).natAbs
    match digits with
    | [d] => String.mk [d] ++ "e" ++ sign ++ power
    | d :: rest => String.mk (d :: '.' :: rest) ++ "e" ++ sign ++ power
    | [] => ""

/-- The text of a positive double `mantissa * 2 ^ exponent`. -/
def doubleToString (mantissa : Nat) (exponent : Int) : String :=
  let x := scale2 mantissa 1 exponent
  let bits : Int := (log2 mantissa : Int) + 1 + exponent
  let n := decimalExponent x.1 x.2 (Int.fdiv (bits * 1233) 4096)
  let found := shortestFrom (mantissa, exponent) x.1 x.2 n 17 1
  let all := (Nat.repr found.1).data
  layout (stripZeros all) (found.2 + all.length)

/-- The text of the number written `mantissa * 10 ^ exponent`, as a template
literal prints it: the numeral is converted to the nearest double and the
double is printed with the fewest digits that denote it. -/
def numberToString (mantissa exponent : Int) : String :=
  if mantissa = 0 then "0"
  else
    let sign := if mantissa < 0 then "-" else ""
    let q := scale10 mantissa.natAbs 1 exponent
    match roundToDouble q.1 q.2 with
    | none => sign ++ "Infinity"
    | some (0, _) => "0"
    | some (m, e) => sign ++ doubleToString m e

/-- Whether the number written `mantissa * 10 ^ exponent` is zero as a
double: the numeral is zero, or so small that it rounds to zero. -/
def isZero (mantissa exponent : Int) : Bool :=
  if mantissa = 0 then true
  else
    let q := scale10 mantissa.natAbs 1 exponent
    match roundToDouble q.1 q.2 with
    | some (0, _) => true
    | _ => false

/-- JavaScript values as they reach the script: JSON data and `undefined`. -/
inductive JsVal where
  | undefined
  | null
  | bool (b : Bool)
  /-- The number whose value is the integer `n`. -/
  | num (n : Int)
  /-- The number whose value is `mantissa * 10 ^ exponent`. -/
  | dec (mantissa : Int) (exponent : Int)
  | str (s : String)
  | arr (items : List JsVal)
  | obj (fields : List (String × JsVal))
  deriving Repr

namespace JsVal

/-- Whether the value is `null` or `undefined`. -/
def isNullish : JsVal → Bool
  | undefined => true
  | null => true
  | _ => false

/-- The boolean a value converts to in `if (v)`, `!v` and `v || w`. -/
def truthy : JsVal → Bool
  | undefined => false
  | null => false
  | bool b => b
  | num n => n != 0
  | dec mantissa exponent => !isZero mantissa exponent
  | str s => s != ""
  | arr _ => true
  | obj _ => true

/-- Number of UTF-16 code units of a string, its `length` in JavaScript. -/
def utf16Length (s : String) : Nat :=
  (s.data.map fun c => if c.toNat < 0x10000 then 1 else 2).sum

/-- Property read `v.key`, for the property names this script reads (data
fields and `length`; no prototype defines one of the data fields). Reading
a property of `null` or `undefined` throws. -/
def getProp (v : JsVal) (key : String) : Except Fault JsVal :=
  match v with
  | undefined => .error .typeError
  | null => .error .typeError
  | obj fields => .ok ((fields.lookup key).getD undefined)
  | arr items => .ok (if key = "length" then num items.length else undefined)
  | str s => .ok (if key = "length" then num (utf16Length s) else undefined)
  | bool _ => .ok undefined
  | num _ => .ok undefined
  | dec _ _ => .ok undefined

/-- Optional chaining `v?.length`. -/
def optLength (v : JsVal) : Except Fault JsVal :=
  if v.isNullish then .ok undefined else getProp v "length"

mutual
/-- The string a value converts to inside a template literal (`ToString`).
An array is joined with commas; an object prints as `[object Object]`
unless it has an own `toString` field, which is data and cannot be called,
so the conversion throws. -/
def toStr : JsVal → Except Fault String
  | undefined => .ok "undefined"
  | null => .ok "null"
  | bool b => .ok (if b then "true" else "false")
  | num n => .ok (numberToString n 0)
  | dec mantissa exponent => .ok (numberToString mantissa exponent)
  | str s => .ok s
  | arr items => joinItems "," items
  | obj fields =>
    if (fields.map Prod.fst).contains "toString" then .error .typeError
    else .ok "[object Object]"
termination_by structural v => v
/-- The body of `Array.prototype.join`: `null` and `undefined` elements are
printed as the empty string, the others are converted with `toStr`. -/
def joinItems (sep : String) : List JsVal → Except Fault String
  | [] => .ok ""
  | [x] => if x.isNullish then .ok "" else toStr x
  | x :: y :: rest =>
    (if x.isNullish then .ok "" else toStr x).bind fun a =>
      (joinItems sep (y :: rest)).bind fun b => .ok (a ++ sep ++ b)
termination_by structural xs => xs
end

/-- The call `v.join(sep)`: only an array has a `join` method. -/
def join (v : JsVal) (sep : String) : Except Fault String :=
  match v with
  | arr items => joinItems sep items
  | _ => .error .typeError

/-- The number a value converts to as an argument of `Math.min`
(`ToNumber`), for numbers whose value is an integer, booleans and `null`.
The progress of a run is an integer; other values are not covered. -/
def toNumber : JsVal → Except Fault Int
  | num n => .ok n
  | dec mantissa (.ofNat k) => .ok (mantissa * 10 ^ k)
  | dec mantissa (.negSucc k) =>
    if mantissa % 10 ^ (k + 1) = 0 then .ok (mantissa / 10 ^ (k + 1)) else .error .outside
  | bool b => .ok (if b then 1 else 0)
  | null => .ok 0
  | _ => .error .outside

/-- The loop of `Array.prototype.forEach`: the callback receives the
element and its index, here also the accumulator it updates. -/
def forEachFrom {σ : Type} (f : JsVal → Nat → σ → Except Fault σ) :
    List JsVal → Nat → σ → Except Fault σ
  | [], _, acc => .ok acc
  | x :: xs, i, acc => (f x i acc).bind fun acc1 => forEachFrom f xs (i + 1) acc1

/-- The call `v.forEach(callback)`: only an array has a `forEach` method. -/
def forEach {σ : Type} (v : JsVal) (f : JsVal → Nat → σ → Except Fault σ)
    (acc : σ) : Except Fault σ :=
  match v with
  | arr items => forEachFrom f items 0 acc
  | _ => .error .typeError

end JsVal

open JsVal

/-! ## The page -/

/-- One child of the `chat` element: a `div` of class `bubble` plus the
role, with the given text content. -/
structure Bubble where
  role : String
  text : String
  deriving DecidableEq, Repr

/-- The part of the document the script writes. -/
structure Page where
  /-- The children of `chat`, in document order. -/
  chat : List Bubble
  /-- The text content of `statusEl`. -/
  statusText : String
  /-- The value of `progressBar.style.width`. -/
  width : String
  /-- Ghost counter: how many times `setStatus` has run. -/
  renders : Nat
  deriving DecidableEq, Repr

/-- The function `addBubble(role, text)`: one new last child of `chat`. -/
def addBubble (role text : String) (p : Page) : Page :=
  { p with chat := p.chat ++ [⟨role, text⟩] }

/-- The function `setStatus(text, progress)`. The status text is written
first; the width is written only when `progress` is neither `null` nor
`undefined`. The second component is the fault raised, if any. -/
def setStatus (text : String) (progress : JsVal) (p : Page) : Page × Option Fault :=
  let p1 := { p with statusText := if text = "" then "" else text,
                     renders := p.renders + 1 }
  if progress.isNullish then (p1, none)
  else
    match toNumber progress with
    | .error f => (p1, some f)
    | .ok n => ({ p1 with width := toString (max 0 (min 100 n)) ++ "%" }, none)

/-! ## The result formatter -/

/-- A substitution of the form `v.key` inside a template literal: the property
is read, then converted to a string. -/
def field (v : JsVal) (key : String) : Except Fault String :=
  (getProp v key).bind toStr

/-- Callback of `recommendations.forEach`: one entry appended to `out`. -/
def recommendationEntry (r : JsVal) (i : Nat) (out : String) : Except Fault String := do
  let name ← field r "name"
  let sku ← field r "sku"
  let price ← field r "price_usd"
  let purpose ← field r "purpose"
  let score ← field r "score"
  let reasoning ← field r "reasoning"
  pure (out ++ ("  " ++ toString (i + 1) ++ ") " ++ name ++ " (" ++ sku ++ ") - $" ++ price
    ++ "\n     Purpose: " ++ purpose ++ "\n     Score: " ++ score
    ++ "\n     Reason: " ++ reasoning ++ "\n"))

/-- Callback of `bundles.forEach`: one entry appended to `out`. -/
def bundleEntry (b : JsVal) (i : Nat) (out : String) : Except Fault String := do
  let name ← field b "name"
  let total ← field b "total_price_usd"
  let items ← (getProp b "items").bind fun xs => join xs ", "
  let score ← field b "score"
  let reasoning ← field b "reasoning"
  pure (out ++ ("  " ++ toString (i + 1) ++ ") " ++ name ++ " - $" ++ total
    ++ "\n     Items: " ++ items ++ "\n     Score: " ++ score
    ++ "\n     Reason: " ++ reasoning ++ "\n"))

/-- Callback of `follow_up_questions.forEach`: one entry appended to `out`. -/
def questionEntry (q : JsVal) (i : Nat) (out : String) : Except Fault String := do
  let text ← toStr q
  pure (out ++ ("  " ++ toString (i + 1) ++ ") " ++ text ++ "\n"))

/-- The statement `if (list?.length) ... list.forEach(entry)`, with the
header appended before the loop. -/
def appendList (list : JsVal) (header : String)
    (entry : JsVal → Nat → String → Except Fault String) (out : String) :
    Except Fault String := do
  let len ← optLength list
  if truthy len then forEach list entry (out ++ header) else pure out

/-- The body of `if (finalData.sales)`. -/
def appendSales (sales : JsVal) (out : String) : Except Fault String := do
  let ticket ← field sales "ticket_id"
  let message ← field sales "message_to_rep"
  let out := out ++ ("\n🧾 Sales Ticket: " ++ ticket ++ "\n" ++ message ++ "\n")
  let out ← appendList (← getProp sales "recommendations") "\n📦 Recommendations:\n"
    recommendationEntry out
  let out ← appendList (← getProp sales "bundles") "\n🎁 Bundle Options (sorted by price):\n"
    bundleEntry out
  appendList (← getProp sales "follow_up_questions") "\n❓ Follow-up Questions:\n"
    questionEntry out

/-- The body of `if (finalData.support)`. -/
def appendSupport (support : JsVal) (out : String) : Except Fault String := do
  let ticket ← field support "ticket_id"
  let message ← field support "message_to_rep"
  let out := out ++ ("\n🛠 Support Ticket: " ++ ticket ++ "\n" ++ message ++ "\n")
  appendList (← getProp support "follow_up_questions") "\n❓ Follow-up Questions:\n"
    questionEntry out

/-- The function `formatFinal(finalData)`. -/
def formatFinal (finalData : JsVal) : Except Fault String := do
  let cls ← getProp finalData "classification"
  let category ← field cls "category"
  let intent ← field cls "intent"
  let confidence ← field cls "confidence"
  let reasoning ← field cls "reasoning"
  let out := "✅ Classification:\n- Category: " ++ category ++ "\n- Intent: " ++ intent
    ++ "\n- Confidence: " ++ confidence ++ "\n- Reasoning: " ++ reasoning ++ "\n"
  let sales ← getProp finalData "sales"
  let out ← (if truthy sales then appendSales sales out else pure out)
  let support ← getProp finalData "support"
  (if truthy support then appendSupport support out else pure out)

/-! ## The event stream -/

/-- The page together with the `EventSource` of one run. -/
structure Run where
  page : Page
  /-- Whether the stream is closed (its `readyState` is `CLOSED`). -/
  closed : Bool
  /-- Ghost counter: how many times `es.close()` has run. -/
  closeCalls : Nat
  deriving DecidableEq, Repr

/-- A named event of the stream. The payload is the outcome of
`JSON.parse(e.data)`: `none` when the call throws (the event carries no
data, or text that is not JSON), the parsed value otherwise. -/
inductive Event where
  | status (payload : Option JsVal)
  | final (payload : Option JsVal)
  | error (payload : Option JsVal)
  deriving Repr

/-- The call `JSON.parse(e.data)` as seen by a listener. -/
def jsonParse (payload : Option JsVal) : Except Fault JsVal :=
  match payload with
  | none => .error .syntaxError
  | some data => .ok data

/-- What the `status` listener evaluates before it calls `setStatus`: the
display text and the progress argument. -/
def statusArgs (payload : Option JsVal) : Except Fault (String × JsVal) := do
  let data ← jsonParse payload
  let msg ← getProp data "message"
  let stepField ← getProp data "step"
  let step := if truthy stepField then stepField else str "processing"
  let progress ← getProp data "progress"
  let stepText ← toStr step
  let msgText ← toStr msg
  pure ("[" ++ stepText ++ "] " ++ msgText, progress)

/-- The `status` listener. The result is the run when the listener returns
or throws, and the fault thrown, if any. -/
def onStatus (payload : Option JsVal) (r : Run) : Run × Option Fault :=
  match statusArgs payload with
  | .error f => (r, some f)
  | .ok (text, progress) =>
    let result := setStatus text progress r.page
    ({ r with page := result.1 }, result.2)

/-- What the `final` listener evaluates before it calls `addBubble`. -/
def finalText (payload : Option JsVal) : Except Fault String := do
  let data ← jsonParse payload
  let result ← getProp data "data"
  formatFinal result

/-- The `final` listener. -/
def onFinal (payload : Option JsVal) (r : Run) : Run × Option Fault :=
  match finalText payload with
  | .error f => (r, some f)
  | .ok text =>
    match setStatus "Done." (num 100) (addBubble "assistant" text r.page) with
    | (page, some f) => ({ r with page := page }, some f)
    | (page, none) => ({ page := page, closed := true, closeCalls := r.closeCalls + 1 }, none)

/-- What the `error` listener evaluates inside `try` before `addBubble`. -/
def errorText (payload : Option JsVal) : Except Fault String := do
  let data ← jsonParse payload
  let message ← field data "message"
  pure ("❌ Error: " ++ message)

/-- The `error` listener: whatever is thrown inside `try` is caught. -/
def onError (payload : Option JsVal) (r : Run) : Run × Option Fault :=
  let text := match errorText payload with
    | .ok text => text
    | .error _ => "❌ Error: Streaming failed."
  match setStatus "Failed." (num 0) (addBubble "assistant" text r.page) with
  | (page, some f) => ({ r with page := page }, some f)
  | (page, none) => ({ page := page, closed := true, closeCalls := r.closeCalls + 1 }, none)

/-- Dispatch of one event by the `EventSource`: a closed stream dispatches
nothing; an open one runs the listener registered for the event name. -/
def deliver (r : Run) (e : Event) : Run × Option Fault :=
  if r.closed then (r, none)
  else
    match e with
    | .status payload => onStatus payload r
    | .final payload => onFinal payload r
    | .error payload => onError payload r

/-- Events delivered in order. An exception that escapes a listener is
reported by the browser and the stream goes on. The result is `none` when an
event leaves the embedded fragment. -/
def feed : Run → List Event → Option Run
  | r, [] => some r
  | r, e :: rest =>
    match deliver r e with
    | (_, some .outside) => none
    | (next, _) => feed next rest

/-! ## The send button -/

/-- Whether `String.prototype.trim` strips the character: white space and
line terminators of ECMAScript. -/
def isTrimmed (c : Char) : Bool :=
  let n := c.toNat
  n == 0x09 || n == 0x0A || n == 0x0B || n == 0x0C || n == 0x0D || n == 0x20
    || n == 0xA0 || n == 0x1680 || (0x2000 ≤ n && n ≤ 0x200A) || n == 0x2028
    || n == 0x2029 || n == 0x202F || n == 0x205F || n == 0x3000 || n == 0xFEFF

/-- The method `String.prototype.trim`. -/
def trim (s : String) : String :=
  ⟨((s.data.dropWhile isTrimmed).reverse.dropWhile isTrimmed).reverse⟩

/-- A value of a `FormData` entry: text, or a file (by its name). -/
inductive FormValue where
  | text (s : String)
  | file (name : String)
  deriving DecidableEq, Repr

/-- One call of `fetch`. -/
structure Request where
  url : String
  method : String
  form : List (String × FormValue)
  deriving DecidableEq, Repr

/-- The outcome of `fetch` followed by `res.json()`: the `fetch` promise
rejects, or it resolves with a response of some status whose body parses
as JSON (`some`) or does not (`none`). -/
inductive FetchReply where
  | rejected
  | response (status : Nat) (body : Option JsVal)
  deriving Repr

/-- The browser as the click handler sees it. -/
structure Browser where
  page : Page
  /-- The calls of `fetch` made so far. -/
  requests : List Request
  /-- The URLs of the `EventSource` objects created so far. -/
  streams : List String
  deriving DecidableEq, Repr

/-- The click handler of `sendBtn`, up to the creation of the
`EventSource`. `subjectValue` and `bodyValue` are the values of the two
inputs, `files` the selected attachments, `reply` what the server answers
if it is asked. The second component is the fault the handler stops with,
if any. -/
def sendClick (subjectValue bodyValue : String) (files : List String)
    (reply : FetchReply) (w : Browser) : Browser × Option Fault :=
  let subject := trim subjectValue
  let body := trim bodyValue
  if subject = "" ∨ body = "" then
    ({ w with page := addBubble "assistant" "Please provide both subject and email body." w.page },
      none)
  else
    match setStatus "Starting workflow..." (num 0)
        (addBubble "user" ("Subject: " ++ subject ++ "\n\n" ++ body) w.page) with
    | (page, some f) => ({ w with page := page }, some f)
    | (page, none) =>
      let fd := [("subject", FormValue.text subject), ("body", FormValue.text body)]
        ++ files.map fun f => ("attachments", FormValue.file f)
      let sent : Browser :=
        { w with page := page, requests := w.requests ++ [⟨"/api/start", "POST", fd⟩] }
      match reply with
      | .rejected => (sent, some .typeError)
      | .response _ none => (sent, some .syntaxError)
      | .response _ (some payload) =>
        match field payload "run_id" with
        | .error f => (sent, some f)
        | .ok runId => ({ sent with streams := sent.streams ++ ["/api/stream/" ++ runId] }, none)

/-! ## The report as a sequence of pieces

The Result Formatter of the specification (section 4.4) describes the
report by its sections, sub-headers and entries. The definitions below
follow that description: a report is a list of pieces, each one an
instantiated template literal of `formatFinal`, and `render` concatenates
their texts. `formatFinal_eq_render` relates them to the function
translated from the script. -/

/-- An instantiated template literal of the report. -/
inductive Piece where
  | classification (category intent confidence reasoning : String)
  | salesTicket (ticket message : String)
  | recommendationsHeader
  | recommendation (ordinal : Nat) (name sku price purpose score reasoning : String)
  | bundlesHeader
  | bundle (ordinal : Nat) (name total items score reasoning : String)
  | questionsHeader
  | question (ordinal : Nat) (text : String)
  | supportTicket (ticket message : String)
  deriving DecidableEq, Repr

/-- The text of a piece. -/
def Piece.text : Piece → String
  | .classification category intent confidence reasoning =>
    "✅ Classification:\n- Category: " ++ category ++ "\n- Intent: " ++ intent
      ++ "\n- Confidence: " ++ confidence ++ "\n- Reasoning: " ++ reasoning ++ "\n"
  | .salesTicket ticket message =>
    "\n🧾 Sales Ticket: " ++ ticket ++ "\n" ++ message ++ "\n"
  | .recommendationsHeader => "\n📦 Recommendations:\n"
  | .recommendation ordinal name sku price purpose score reasoning =>
    "  " ++ toString ordinal ++ ") " ++ name ++ " (" ++ sku ++ ") - $" ++ price
      ++ "\n     Purpose: " ++ purpose ++ "\n     Score: " ++ score
      ++ "\n     Reason: " ++ reasoning ++ "\n"
  | .bundlesHeader => "\n🎁 Bundle Options (sorted by price):\n"
  | .bundle ordinal name total items score reasoning =>
    "  " ++ toString ordinal ++ ") " ++ name ++ " - $" ++ total
      ++ "\n     Items: " ++ items ++ "\n     Score: " ++ score
      ++ "\n     Reason: " ++ reasoning ++ "\n"
  | .questionsHeader => "\n❓ Follow-up Questions:\n"
  | .question ordinal text => "  " ++ toString ordinal ++ ") " ++ text ++ "\n"
  | .supportTicket ticket message =>
    "\n🛠 Support Ticket: " ++ ticket ++ "\n" ++ message ++ "\n"

/-- The text of a sequence of pieces. -/
def render : List Piece → String
  | [] => ""
  | p :: ps => p.text ++ render ps

/-- The Classification section of a classification value. -/
def classificationPiece (cls : JsVal) : Except Fault Piece := do
  let category ← field cls "category"
  let intent ← field cls "intent"
  let confidence ← field cls "confidence"
  let reasoning ← field cls "reasoning"
  pure (.classification category intent confidence reasoning)

/-- The entry of the recommendation at index `i`, numbered `i + 1`. -/
def recommendationPiece (r : JsVal) (i : Nat) : Except Fault Piece := do
  let name ← field r "name"
  let sku ← field r "sku"
  let price ← field r "price_usd"
  let purpose ← field r "purpose"
  let score ← field r "score"
  let reasoning ← field r "reasoning"
  pure (.recommendation (i + 1) name sku price purpose score reasoning)

/-- The entry of the bundle at index `i`, numbered `i + 1`. -/
def bundlePiece (b : JsVal) (i : Nat) : Except Fault Piece := do
  let name ← field b "name"
  let total ← field b "total_price_usd"
  let items ← (getProp b "items").bind fun xs => join xs ", "
  let score ← field b "score"
  let reasoning ← field b "reasoning"
  pure (.bundle (i + 1) name total items score reasoning)

/-- The entry of the question at index `i`, numbered `i + 1`. -/
def questionPiece (q : JsVal) (i : Nat) : Except Fault Piece := do
  let text ← toStr q
  pure (.question (i + 1) text)

/-- The entries of a list, in the order of the list, the first one at
index `i`. -/
def entries (f : JsVal → Nat → Except Fault Piece) : List JsVal → Nat → Except Fault (List Piece)
  | [], _ => .ok []
  | x :: xs, i => do
    let p ← f x i
    let ps ← entries f xs (i + 1)
    pure (p :: ps)

/-- An optional list: nothing when its `length` is absent or zero, else
the sub-header followed by the entries. -/
def listPieces (list : JsVal) (header : Piece) (f : JsVal → Nat → Except Fault Piece) :
    Except Fault (List Piece) := do
  let len ← optLength list
  if truthy len then
    match list with
    | arr items => do
      let ps ← entries f items 0
      pure (header :: ps)
    | _ => .error .typeError
  else pure []

/-- The Sales section of the `sales` field: nothing when the field is
absent, else the ticket line followed by the three optional lists. -/
def salesPieces (sales : JsVal) : Except Fault (List Piece) :=
  if truthy sales then do
    let ticket ← field sales "ticket_id"
    let message ← field sales "message_to_rep"
    let recs ← getProp sales "recommendations"
    let recPieces ← listPieces recs .recommendationsHeader recommendationPiece
    let bundles ← getProp sales "bundles"
    let bundlePieces ← listPieces bundles .bundlesHeader bundlePiece
    let questions ← getProp sales "follow_up_questions"
    let questionPieces ← listPieces questions .questionsHeader questionPiece
    pure (.salesTicket ticket message :: (recPieces ++ bundlePieces ++ questionPieces))
  else pure []

/-- The Support section of the `support` field: nothing when the field is
absent, else the ticket line followed by the optional list of questions. -/
def supportPieces (support : JsVal) : Except Fault (List Piece) :=
  if truthy support then do
    let ticket ← field support "ticket_id"
    let message ← field support "message_to_rep"
    let questions ← getProp support "follow_up_questions"
    let questionPieces ← listPieces questions .questionsHeader questionPiece
    pure (.supportTicket ticket message :: questionPieces)
  else pure []

/-- The report of a final result: Classification, then Sales, then Support. -/
def formatFinalPieces (finalData : JsVal) : Except Fault (List Piece) := do
  let cls ← getProp finalData "classification"
  let c ← classificationPiece cls
  let sales ← getProp finalData "sales"
  let s ← salesPieces sales
  let support ← getProp finalData "support"
  let t ← supportPieces support
  pure (c :: (s ++ t))

/-! ## Lemmas: the `Except` monad and the refinement of `formatFinal` -/

set_option maxRecDepth 100000

theorem bind_ok {α β : Type} (a : α) (f : α → Except Fault β) :
    (Except.ok a >>= f) = f a :=
  rfl

theorem bind_error {α β : Type} (e : Fault) (f : α → Except Fault β) :
    (Except.error e >>= f) = Except.error e :=
  rfl

theorem ebind_ok {α β : Type} (a : α) (f : α → Except Fault β) :
    (Except.ok a).bind f = f a :=
  rfl

theorem ebind_error {α β : Type} (e : Fault) (f : α → Except Fault β) :
    (Except.error e : Except Fault α).bind f = Except.error e :=
  rfl

theorem pure_eq_ok {α : Type} (a : α) : (pure a : Except Fault α) = Except.ok a :=
  rfl

theorem bind_eq_ok {α β : Type} {x : Except Fault α} {f : α → Except Fault β} {b : β} :
    (x >>= f) = .ok b ↔ ∃ a, x = .ok a ∧ f a = .ok b := by
  cases x with
  | error e => simp [bind_error]
  | ok a => simp [bind_ok]

theorem render_append (ps qs : List Piece) : render (ps ++ qs) = render ps ++ render qs := by
  induction ps with
  | nil => simp [render]
  | cons p ps ih => simp [render, ih, String.append_assoc]

theorem recommendationEntry_eq (r : JsVal) (i : Nat) (out : String) :
    recommendationEntry r i out = (recommendationPiece r i >>= fun p => pure (out ++ p.text)) := by
  simp [recommendationEntry, recommendationPiece, Piece.text]

theorem bundleEntry_eq (b : JsVal) (i : Nat) (out : String) :
    bundleEntry b i out = (bundlePiece b i >>= fun p => pure (out ++ p.text)) := by
  simp [bundleEntry, bundlePiece, Piece.text]

theorem questionEntry_eq (q : JsVal) (i : Nat) (out : String) :
    questionEntry q i out = (questionPiece q i >>= fun p => pure (out ++ p.text)) := by
  simp [questionEntry, questionPiece, Piece.text]

theorem forEachFrom_eq_entries (f : JsVal → Nat → Except Fault Piece)
    (g : JsVal → Nat → String → Except Fault String)
    (h : ∀ x i out, g x i out = (f x i >>= fun p => pure (out ++ p.text)))
    (xs : List JsVal) (i : Nat) (out : String) :
    forEachFrom g xs i out = (entries f xs i >>= fun ps => pure (out ++ render ps)) := by
  induction xs generalizing i out with
  | nil => simp [forEachFrom, entries, render, bind_ok, pure_eq_ok]
  | cons x xs ih =>
    rw [forEachFrom, entries, h]
    cases hx : f x i with
    | error e => rfl
    | ok p =>
      simp only [bind_ok, ebind_ok, pure_eq_ok]
      rw [ih]
      cases entries f xs (i + 1) with
      | error e => rfl
      | ok ps => simp [bind_ok, pure_eq_ok, render, String.append_assoc]

theorem appendList_eq (f : JsVal → Nat → Except Fault Piece)
    (g : JsVal → Nat → String → Except Fault String)
    (h : ∀ x i out, g x i out = (f x i >>= fun p => pure (out ++ p.text)))
    (list : JsVal) (header : Piece) (out : String) :
    appendList list header.text g out
      = (listPieces list header f >>= fun ps => pure (out ++ render ps)) := by
  unfold appendList listPieces
  cases optLength list with
  | error e => rfl
  | ok len =>
    simp only [bind_ok]
    by_cases ht : truthy len = true
    · simp only [ht, if_true]
      cases list with
      | arr items =>
        simp only [forEach]
        rw [forEachFrom_eq_entries f g h]
        cases entries f items 0 with
        | error e => rfl
        | ok ps => simp [bind_ok, pure_eq_ok, render, String.append_assoc]
      | _ => rfl
    · simp [ht, render, pure_eq_ok, bind_ok]


theorem appendRecommendations_eq (list : JsVal) (out : String) :
    appendList list "\n📦 Recommendations:\n" recommendationEntry out
      = (listPieces list .recommendationsHeader recommendationPiece
          >>= fun ps => pure (out ++ render ps)) :=
  appendList_eq recommendationPiece recommendationEntry recommendationEntry_eq list
    .recommendationsHeader out

theorem appendBundles_eq (list : JsVal) (out : String) :
    appendList list "\n🎁 Bundle Options (sorted by price):\n" bundleEntry out
      = (listPieces list .bundlesHeader bundlePiece >>= fun ps => pure (out ++ render ps)) :=
  appendList_eq bundlePiece bundleEntry bundleEntry_eq list .bundlesHeader out

theorem appendQuestions_eq (list : JsVal) (out : String) :
    appendList list "\n❓ Follow-up Questions:\n" questionEntry out
      = (listPieces list .questionsHeader questionPiece >>= fun ps => pure (out ++ render ps)) :=
  appendList_eq questionPiece questionEntry questionEntry_eq list .questionsHeader out

theorem appendSales_eq (sales : JsVal) (out : String) :
    (if truthy sales then appendSales sales out else pure out)
      = (salesPieces sales >>= fun ps => pure (out ++ render ps)) := by
  unfold salesPieces
  by_cases ht : truthy sales = true
  · simp only [ht, if_true, appendSales]
    simp only [appendRecommendations_eq, appendBundles_eq, appendQuestions_eq]
    simp [render, render_append, Piece.text, String.append_assoc]
  · simp [ht, render, pure_eq_ok, bind_ok]

theorem appendSupport_eq (support : JsVal) (out : String) :
    (if truthy support then appendSupport support out else pure out)
      = (supportPieces support >>= fun ps => pure (out ++ render ps)) := by
  unfold supportPieces
  by_cases ht : truthy support = true
  · simp only [ht, if_true, appendSupport]
    simp only [appendQuestions_eq]
    simp [render, render_append, Piece.text, String.append_assoc]
  · simp [ht, render, pure_eq_ok, bind_ok]

theorem formatFinal_eq_render (finalData : JsVal) :
    formatFinal finalData = (formatFinalPieces finalData >>= fun ps => pure (render ps)) := by
  unfold formatFinal formatFinalPieces
  simp only [appendSales_eq, appendSupport_eq, classificationPiece]
  simp [render, render_append, Piece.text, String.append_assoc]

/-! ## Printing stays inside the embedding -/

mutual
theorem toStr_ne_outside : ∀ v : JsVal, toStr v ≠ .error .outside
  | .undefined => by simp [toStr]
  | .null => by simp [toStr]
  | .bool b => by cases b <;> simp [toStr]
  | .num _ => by simp [toStr]
  | .dec _ _ => by simp [toStr]
  | .str _ => by simp [toStr]
  | .arr items => by
    rw [toStr]
    exact joinItems_ne_outside "," items
  | .obj fields => by
    rw [toStr]
    split <;> simp
theorem joinItems_ne_outside (sep : String) : ∀ xs : List JsVal, joinItems sep xs ≠ .error .outside
  | [] => by simp [joinItems]
  | [x] => by
    rw [joinItems]
    split
    · simp
    · exact toStr_ne_outside x
  | x :: y :: rest => by
    rw [joinItems]
    have h1 := toStr_ne_outside x
    have h2 := joinItems_ne_outside sep (y :: rest)
    intro h
    by_cases hx : x.isNullish = true
    · simp only [hx, if_true] at h
      cases h3 : joinItems sep (y :: rest) with
      | error f => rw [h3] at h; simp [Except.bind] at h; exact h2 (by rw [h3, h])
      | ok b => rw [h3] at h; simp [Except.bind] at h
    · simp only [hx] at h
      cases h4 : toStr x with
      | error f => rw [h4] at h; simp [Except.bind] at h; exact h1 (by rw [h4, h])
      | ok a =>
        rw [h4] at h
        cases h3 : joinItems sep (y :: rest) with
        | error f => rw [h3] at h; simp [Except.bind] at h; exact h2 (by rw [h3, h])
        | ok b => rw [h3] at h; simp [Except.bind] at h
end

theorem field_ne_outside (v : JsVal) (key : String) : field v key ≠ .error .outside := by
  unfold field
  cases v with
  | undefined => simp [getProp, Except.bind]
  | null => simp [getProp, Except.bind]
  | _ => exact toStr_ne_outside _

theorem errorText_ne_outside (payload : Option JsVal) :
    errorText payload ≠ .error .outside := by
  cases payload with
  | none => simp [errorText, jsonParse, bind_error]
  | some data =>
    intro h
    cases hm : field data "message" with
    | ok m => simp [errorText, jsonParse, hm, bind_ok, pure_eq_ok] at h
    | error f =>
      simp only [errorText, jsonParse, hm, bind_ok, bind_error] at h
      exact field_ne_outside data "message" (by rw [hm, Except.error.inj h])

theorem numberToString_values :
    numberToString 87 (-2) = "0.87"
    ∧ numberToString 1999 (-2) = "19.99"
    ∧ numberToString 100 0 = "100"
    ∧ numberToString (-5) (-1) = "-0.5"
    ∧ numberToString 30000000000000004 (-17) = "0.30000000000000004"
    ∧ numberToString 9007199254740993 0 = "9007199254740992"
    ∧ numberToString 18446744073709551616 0 = "18446744073709552000"
    ∧ numberToString 1 21 = "1e+21"
    ∧ numberToString 123 (-9) = "1.23e-7" := by
  refine ⟨?_, ?_, ?_, ?_, ?_, ?_, ?_, ?_, ?_⟩ <;> rfl

theorem truthy_values :
    truthy (dec 5 (-1)) = true ∧ truthy (dec 0 3) = false ∧ truthy (num 0) = false
    ∧ truthy (str "") = false ∧ truthy (str "0") = true := by
  refine ⟨?_, ?_, ?_, ?_, ?_⟩ <;> rfl

/-! ## Status rendering and the send button -/

theorem or_empty (text : String) : (if text = "" then "" else text) = text := by
  split
  · next h => exact h.symm
  · rfl

theorem setStatus_num (text : String) (n : Int) (page : Page) :
    setStatus text (num n) page
      = ({ page with statusText := text, width := toString (max 0 (min 100 n)) ++ "%",
                     renders := page.renders + 1 }, none) := by
  simp [setStatus, isNullish, toNumber, or_empty]

theorem setStatus_undefined (text : String) (page : Page) :
    setStatus text undefined page
      = ({ page with statusText := text, renders := page.renders + 1 }, none) := by
  simp [setStatus, isNullish, or_empty]

/-- C1: for every numeric progress value `p`, `setStatus(text, p)` writes the
status text and sets the width of the progress bar to `max(0, min(100, p))`
percent; `p = -5` displays `0%` and `p = 150` displays `100%`. -/
theorem setStatus_clamps_progress :
    (∀ (text : String) (p : Int) (page : Page),
      setStatus text (num p) page
        = ({ page with statusText := text, width := toString (max 0 (min 100 p)) ++ "%",
                       renders := page.renders + 1 }, none))
    ∧ (∀ (text : String) (page : Page), (setStatus text (num (-5)) page).1.width = "0%")
    ∧ (∀ (text : String) (page : Page), (setStatus text (num 150) page).1.width = "100%") := by
  refine ⟨setStatus_num, ?_, ?_⟩
  · intro text page
    rw [setStatus_num]
    show toString (max 0 (min 100 (-5 : Int))) ++ "%" = "0%"
    decide
  · intro text page
    rw [setStatus_num]
    show toString (max 0 (min 100 (150 : Int))) ++ "%" = "100%"
    decide

/-- C2: a status event whose payload has no `progress` field (reading
`data.progress` gives `undefined`), and for which the listener computes the
display text `text`, is handled without a fault: the width of the progress
bar and the chat are left as they were, whatever they were, and the status
text becomes `text`. -/
theorem status_without_progress_keeps_width (data : JsVal) (text : String)
    (progress : JsVal) (r : Run)
    (hfield : getProp data "progress" = .ok undefined)
    (htext : statusArgs (some data) = .ok (text, progress)) :
    onStatus (some data) r
      = ({ r with page := { r.page with statusText := text,
                                        renders := r.page.renders + 1 } }, none)
    ∧ (onStatus (some data) r).1.page.width = r.page.width
    ∧ (onStatus (some data) r).1.page.chat = r.page.chat
    ∧ (onStatus (some data) r).1.page.statusText = text := by
  have hp : progress = undefined := by
    simp only [statusArgs, jsonParse, hfield, bind_eq_ok, pure_eq_ok, Except.ok.injEq,
      Prod.mk.injEq] at htext
    obtain ⟨_, rfl, _, _, _, _, found, hfound, _, _, _, _, _, rfl⟩ := htext
    rw [hfield] at hfound
    exact (Except.ok.inj hfound).symm
  subst hp
  have h : onStatus (some data) r
      = ({ r with page := { r.page with statusText := text,
                                        renders := r.page.renders + 1 } }, none) := by
    simp only [onStatus, htext, setStatus_undefined]
  rw [h]
  exact ⟨rfl, rfl, rfl, rfl⟩

theorem status_without_progress_keeps_width_witness :
    onStatus (some (obj [("message", str "Classifying"), ("step", str "classify")]))
        ⟨⟨[], "[start] Received", "40%", 2⟩, false, 0⟩
      = (⟨⟨[], "[classify] Classifying", "40%", 3⟩, false, 0⟩, none) :=
  (status_without_progress_keeps_width
    (obj [("message", str "Classifying"), ("step", str "classify")])
    "[classify] Classifying" undefined ⟨⟨[], "[start] Received", "40%", 2⟩, false, 0⟩
    rfl rfl).1

/-- C3: when the subject or the body is empty after trimming, the click
handler makes no `fetch` call and opens no stream; it appends exactly one
assistant bubble, the one that asks for both subject and body, and leaves
the status text and the progress bar as they were. -/
theorem empty_input_is_rejected_locally (subjectValue bodyValue : String)
    (files : List String) (reply : FetchReply) (w : Browser)
    (hempty : trim subjectValue = "" ∨ trim bodyValue = "") :
    sendClick subjectValue bodyValue files reply w
      = ({ w with page := { w.page with chat := w.page.chat
            ++ [⟨"assistant", "Please provide both subject and email body."⟩] } }, none)
    ∧ (sendClick subjectValue bodyValue files reply w).1.requests = w.requests
    ∧ (sendClick subjectValue bodyValue files reply w).1.streams = w.streams
    ∧ (sendClick subjectValue bodyValue files reply w).1.page.statusText = w.page.statusText
    ∧ (sendClick subjectValue bodyValue files reply w).1.page.width = w.page.width := by
  have h : sendClick subjectValue bodyValue files reply w
      = ({ w with page := { w.page with chat := w.page.chat
            ++ [⟨"assistant", "Please provide both subject and email body."⟩] } }, none) := by
    simp only [sendClick, hempty, if_true, addBubble]
  rw [h]
  exact ⟨rfl, rfl, rfl, rfl, rfl⟩

theorem empty_input_is_rejected_locally_witness :
    sendClick "Order 12" " \n\t " ["invoice.pdf"] (.response 200 (some (obj [("run_id", str "r1")])))
        ⟨⟨[], "Done.", "100%", 4⟩, [], []⟩
      = (⟨⟨[⟨"assistant", "Please provide both subject and email body."⟩], "Done.", "100%", 4⟩,
          [], []⟩, none) :=
  (empty_input_is_rejected_locally "Order 12" " \n\t " ["invoice.pdf"]
    (.response 200 (some (obj [("run_id", str "r1")]))) ⟨⟨[], "Done.", "100%", 4⟩, [], []⟩
    (Or.inr (by decide))).1

/-- C6: an error event whose payload does not parse as JSON, which includes
an event without data, is handled without a fault: exactly one assistant
bubble with the generic failure message is appended, the status text
becomes `Failed.`, the progress bar is set to `0%` and the stream is
closed. -/
theorem unparsable_error_event_fails_generically (r : Run) :
    onError none r
      = ({ page := { chat := r.page.chat ++ [⟨"assistant", "❌ Error: Streaming failed."⟩],
                     statusText := "Failed.", width := "0%",
                     renders := r.page.renders + 1 },
           closed := true, closeCalls := r.closeCalls + 1 }, none) := by
  rfl

/-- C4 (the guarantee fails on the code): a `final` event whose payload does
not parse, or parses to an object without a `data` field, makes its
listener throw before `es.close()` is reached, so the stream is still open
and `close` was never called; the status event that follows is processed
and replaces the status text. The `error` listener guards the same step
with `try`: after an unparsable `error` event the stream is closed once
and the status event that follows changes nothing. -/
theorem unparsable_final_event_leaves_stream_open (page : Page) :
    deliver ⟨page, false, 0⟩ (.final none) = (⟨page, false, 0⟩, some .syntaxError)
    ∧ deliver ⟨page, false, 0⟩ (.final (some (obj []))) = (⟨page, false, 0⟩, some .typeError)
    ∧ feed ⟨page, false, 0⟩ [.final none, .status (some (obj [("message", str "late")]))]
      = some ⟨{ page with statusText := "[processing] late", renders := page.renders + 1 },
          false, 0⟩
    ∧ feed ⟨page, false, 0⟩ [.error none, .status (some (obj [("message", str "late")]))]
      = some ⟨{ chat := page.chat ++ [⟨"assistant", "❌ Error: Streaming failed."⟩],
                statusText := "Failed.", width := "0%", renders := page.renders + 1 },
          true, 1⟩ := by
  refine ⟨?_, ?_, ?_, ?_⟩ <;> rfl

/-! ## The sections of the report -/

/-- C7: when the `sales` and `support` fields of a final result are absent
(or hold a value that counts as false), the report is exactly the
Classification section: its header and the category, intent, confidence
and reasoning lines. It is made of one piece, so no sales ticket line and
no support ticket line is emitted. -/
theorem classification_only_report (finalData cls sales support : JsVal)
    (category intent confidence reasoning : String)
    (hcls : getProp finalData "classification" = .ok cls)
    (hcategory : field cls "category" = .ok category)
    (hintent : field cls "intent" = .ok intent)
    (hconfidence : field cls "confidence" = .ok confidence)
    (hreasoning : field cls "reasoning" = .ok reasoning)
    (hsales : getProp finalData "sales" = .ok sales) (hnosales : truthy sales = false)
    (hsupport : getProp finalData "support" = .ok support)
    (hnosupport : truthy support = false) :
    formatFinal finalData
      = .ok ("✅ Classification:\n- Category: " ++ category ++ "\n- Intent: " ++ intent
          ++ "\n- Confidence: " ++ confidence ++ "\n- Reasoning: " ++ reasoning ++ "\n")
    ∧ formatFinalPieces finalData
      = .ok [Piece.classification category intent confidence reasoning] := by
  have hp : formatFinalPieces finalData
      = .ok [Piece.classification category intent confidence reasoning] := by
    simp only [formatFinalPieces, classificationPiece, salesPieces, supportPieces, hcls,
      hcategory, hintent, hconfidence, hreasoning, hsales, hnosales, hsupport, hnosupport,
      bind_ok, pure_eq_ok]
    rfl
  refine ⟨?_, hp⟩
  rw [formatFinal_eq_render, hp]
  simp [bind_ok, pure_eq_ok, render, Piece.text, String.append_assoc]

theorem classification_only_report_witness :
    formatFinal (obj [("classification", obj [("category", str "spam"), ("intent", str "none"),
        ("confidence", dec 87 (-2)), ("reasoning", str "bulk mail")])])
      = .ok ("✅ Classification:\n- Category: " ++ "spam" ++ "\n- Intent: " ++ "none"
          ++ "\n- Confidence: " ++ "0.87" ++ "\n- Reasoning: " ++ "bulk mail" ++ "\n")
    ∧ formatFinalPieces (obj [("classification", obj [("category", str "spam"),
        ("intent", str "none"), ("confidence", dec 87 (-2)), ("reasoning", str "bulk mail")])])
      = .ok [Piece.classification "spam" "none" "0.87" "bulk mail"] :=
  classification_only_report
    (obj [("classification", obj [("category", str "spam"), ("intent", str "none"),
        ("confidence", dec 87 (-2)), ("reasoning", str "bulk mail")])])
    (obj [("category", str "spam"), ("intent", str "none"),
        ("confidence", dec 87 (-2)), ("reasoning", str "bulk mail")])
    undefined undefined "spam" "none" "0.87" "bulk mail" rfl rfl rfl rfl rfl rfl rfl rfl rfl

/-- C10: the report of every final result is the Classification section,
then the Sales section, then the Support section. The Sales section is a
function of the `sales` field alone and the Support section of the
`support` field alone; each is empty when its field is absent and starts
with its ticket line when the field is present, so with both fields
present both sections are rendered, Sales first. -/
theorem report_is_classification_sales_support :
    (∀ finalData : JsVal,
      formatFinal finalData
        = (getProp finalData "classification" >>= fun cls =>
            classificationPiece cls >>= fun c =>
            getProp finalData "sales" >>= fun sales =>
            salesPieces sales >>= fun s =>
            getProp finalData "support" >>= fun support =>
            supportPieces support >>= fun t =>
            pure (c.text ++ render s ++ render t)))
    ∧ (∀ sales : JsVal, truthy sales = false → salesPieces sales = .ok [])
    ∧ (∀ (sales : JsVal) (s : List Piece), truthy sales = true → salesPieces sales = .ok s →
        ∃ ticket message rest, field sales "ticket_id" = .ok ticket
          ∧ field sales "message_to_rep" = .ok message
          ∧ s = Piece.salesTicket ticket message :: rest)
    ∧ (∀ support : JsVal, truthy support = false → supportPieces support = .ok [])
    ∧ (∀ (support : JsVal) (t : List Piece), truthy support = true →
        supportPieces support = .ok t →
        ∃ ticket message rest, field support "ticket_id" = .ok ticket
          ∧ field support "message_to_rep" = .ok message
          ∧ t = Piece.supportTicket ticket message :: rest) := by
  refine ⟨?_, ?_, ?_, ?_, ?_⟩
  · intro finalData
    rw [formatFinal_eq_render]
    simp [formatFinalPieces, render, render_append, String.append_assoc]
  · intro sales h
    simp [salesPieces, h, pure_eq_ok]
  · intro sales s h hs
    simp only [salesPieces, h, if_true, bind_eq_ok, pure_eq_ok, Except.ok.injEq] at hs
    obtain ⟨ticket, h1, message, h2, _, _, _, _, _, _, _, _, _, _, _, _, h3⟩ := hs
    exact ⟨ticket, message, _, h1, h2, h3.symm⟩
  · intro support h
    simp [supportPieces, h, pure_eq_ok]
  · intro support t h ht
    simp only [supportPieces, h, if_true, bind_eq_ok, pure_eq_ok, Except.ok.injEq] at ht
    obtain ⟨ticket, h1, message, h2, _, _, _, _, h3⟩ := ht
    exact ⟨ticket, message, _, h1, h2, h3.symm⟩

theorem entries_getElem (f : JsVal → Nat → Except Fault Piece) (xs : List JsVal) (i : Nat)
    (ps : List Piece) (h : entries f xs i = .ok ps) :
    ps.length = xs.length
    ∧ ∀ (k : Nat) (x : JsVal), xs[k]? = some x →
        ∃ p, ps[k]? = some p ∧ f x (i + k) = .ok p := by
  induction xs generalizing i ps with
  | nil =>
    simp only [entries, Except.ok.injEq] at h
    subst h
    simp
  | cons y ys ih =>
    simp only [entries, bind_eq_ok, pure_eq_ok, Except.ok.injEq] at h
    obtain ⟨p, hp, qs, hqs, rfl⟩ := h
    obtain ⟨hlen, hget⟩ := ih (i + 1) qs hqs
    refine ⟨by simp [hlen], ?_⟩
    intro k x hk
    cases k with
    | zero =>
      simp only [List.getElem?_cons_zero, Option.some.injEq] at hk
      subst hk
      exact ⟨p, by simp, by simpa using hp⟩
    | succ k =>
      simp only [List.getElem?_cons_succ] at hk
      obtain ⟨q, hq, hf⟩ := hget k x hk
      refine ⟨q, by simpa using hq, ?_⟩
      have : i + (k + 1) = i + 1 + k := by omega
      rw [this]
      exact hf

theorem entries_mem (f : JsVal → Nat → Except Fault Piece) (xs : List JsVal) (i : Nat)
    (ps : List Piece) (h : entries f xs i = .ok ps) (p : Piece) (hp : p ∈ ps) :
    ∃ x k, f x k = .ok p := by
  induction xs generalizing i ps with
  | nil =>
    simp only [entries, Except.ok.injEq] at h
    subst h
    cases hp
  | cons y ys ih =>
    simp only [entries, bind_eq_ok, pure_eq_ok, Except.ok.injEq] at h
    obtain ⟨q, hq, qs, hqs, rfl⟩ := h
    rcases List.mem_cons.mp hp with rfl | hmem
    · exact ⟨y, i, hq⟩
    · exact ih (i + 1) qs hqs hmem

theorem listPieces_cases (list : JsVal) (header : Piece) (f : JsVal → Nat → Except Fault Piece)
    (ps : List Piece) (h : listPieces list header f = .ok ps) :
    ps = [] ∨ ∃ items rest, list = arr items ∧ entries f items 0 = .ok rest
      ∧ ps = header :: rest := by
  simp only [listPieces, bind_eq_ok] at h
  obtain ⟨len, _, h⟩ := h
  by_cases ht : truthy len = true
  · simp only [ht, if_true] at h
    cases list with
    | arr items =>
      simp only [bind_eq_ok, pure_eq_ok, Except.ok.injEq] at h
      obtain ⟨rest, hrest, rfl⟩ := h
      exact Or.inr ⟨items, rest, rfl, hrest, rfl⟩
    | _ => cases h
  · simp only [ht, pure_eq_ok, Except.ok.injEq, Bool.false_eq_true, if_false] at h
    exact Or.inl h.symm

theorem listPieces_mem (list : JsVal) (header : Piece) (f : JsVal → Nat → Except Fault Piece)
    (ps : List Piece) (h : listPieces list header f = .ok ps) (p : Piece) (hp : p ∈ ps) :
    p = header ∨ ∃ x k, f x k = .ok p := by
  rcases listPieces_cases list header f ps h with rfl | ⟨items, rest, _, hrest, rfl⟩
  · cases hp
  · rcases List.mem_cons.mp hp with rfl | hmem
    · exact Or.inl rfl
    · exact Or.inr (entries_mem f items 0 rest hrest p hmem)

theorem listPieces_absent_or_empty (list : JsVal) (header : Piece)
    (f : JsVal → Nat → Except Fault Piece)
    (h : list = undefined ∨ list = null ∨ list = arr []) :
    listPieces list header f = .ok [] := by
  rcases h with rfl | rfl | rfl <;> rfl

theorem recommendationPiece_shape (r : JsVal) (i : Nat) (p : Piece)
    (h : recommendationPiece r i = .ok p) :
    ∃ name sku price purpose score reasoning,
      p = .recommendation (i + 1) name sku price purpose score reasoning
      ∧ field r "name" = .ok name ∧ field r "sku" = .ok sku
      ∧ field r "price_usd" = .ok price ∧ field r "purpose" = .ok purpose
      ∧ field r "score" = .ok score ∧ field r "reasoning" = .ok reasoning := by
  simp only [recommendationPiece, bind_eq_ok, pure_eq_ok, Except.ok.injEq] at h
  obtain ⟨a, ha, b, hb, c, hc, d, hd, e, he, g, hg, rfl⟩ := h
  exact ⟨a, b, c, d, e, g, rfl, ha, hb, hc, hd, he, hg⟩

theorem bundlePiece_shape (b : JsVal) (i : Nat) (p : Piece) (h : bundlePiece b i = .ok p) :
    ∃ name total items score reasoning,
      p = .bundle (i + 1) name total items score reasoning
      ∧ field b "name" = .ok name ∧ field b "total_price_usd" = .ok total
      ∧ ((getProp b "items").bind fun xs => join xs ", ") = .ok items
      ∧ field b "score" = .ok score ∧ field b "reasoning" = .ok reasoning := by
  simp only [bundlePiece, bind_eq_ok, pure_eq_ok, Except.ok.injEq] at h
  obtain ⟨a, ha, c, hc, d, hd, e, he, g, hg, rfl⟩ := h
  exact ⟨a, c, d, e, g, rfl, ha, hc, hd, he, hg⟩

theorem questionPiece_shape (q : JsVal) (i : Nat) (p : Piece) (h : questionPiece q i = .ok p) :
    ∃ text, p = .question (i + 1) text ∧ toStr q = .ok text := by
  simp only [questionPiece, bind_eq_ok, pure_eq_ok, Except.ok.injEq] at h
  obtain ⟨a, ha, rfl⟩ := h
  exact ⟨a, rfl, ha⟩

theorem classificationPiece_shape (cls : JsVal) (p : Piece) (h : classificationPiece cls = .ok p) :
    ∃ category intent confidence reasoning,
      p = .classification category intent confidence reasoning := by
  simp only [classificationPiece, bind_eq_ok, pure_eq_ok, Except.ok.injEq] at h
  obtain ⟨a, _, b, _, c, _, d, _, rfl⟩ := h
  exact ⟨a, b, c, d, rfl⟩

/-- The pieces of a report, section by section. -/
theorem formatFinalPieces_split (finalData sales : JsVal) (ps : List Piece)
    (hps : formatFinalPieces finalData = .ok ps)
    (hsales : getProp finalData "sales" = .ok sales) (hpresent : truthy sales = true) :
    ∃ cls c ticket message recs recPieces bundles bundlePieces questions questionPieces
        support t,
      classificationPiece cls = .ok c
      ∧ field sales "ticket_id" = .ok ticket ∧ field sales "message_to_rep" = .ok message
      ∧ getProp sales "recommendations" = .ok recs
      ∧ listPieces recs .recommendationsHeader recommendationPiece = .ok recPieces
      ∧ getProp sales "bundles" = .ok bundles
      ∧ listPieces bundles .bundlesHeader bundlePiece = .ok bundlePieces
      ∧ getProp sales "follow_up_questions" = .ok questions
      ∧ listPieces questions .questionsHeader questionPiece = .ok questionPieces
      ∧ supportPieces support = .ok t
      ∧ ps = c :: (Piece.salesTicket ticket message
          :: (recPieces ++ bundlePieces ++ questionPieces) ++ t) := by
  simp only [formatFinalPieces, hsales, bind_eq_ok, pure_eq_ok, Except.ok.injEq] at hps
  obtain ⟨cls, _, c, hc, _, rfl, s, hs, support, _, t, ht, rfl⟩ := hps
  simp only [salesPieces, hpresent, if_true, bind_eq_ok, pure_eq_ok, Except.ok.injEq] at hs
  obtain ⟨ticket, h1, message, h2, recs, h3, recPieces, h4, bundles, h5, bundlePieces, h6,
    questions, h7, questionPieces, h8, rfl⟩ := hs
  exact ⟨cls, c, ticket, message, recs, recPieces, bundles, bundlePieces, questions,
    questionPieces, support, t, hc, h1, h2, h3, h4, h5, h6, h7, h8, ht, rfl⟩

theorem supportPieces_mem (support : JsVal) (t : List Piece) (h : supportPieces support = .ok t)
    (p : Piece) (hp : p ∈ t) :
    (∃ ticket message, p = .supportTicket ticket message) ∨ p = .questionsHeader
      ∨ ∃ n text, p = .question n text := by
  by_cases ht : truthy support = true
  · simp only [supportPieces, ht, if_true, bind_eq_ok, pure_eq_ok, Except.ok.injEq] at h
    obtain ⟨ticket, _, message, _, questions, _, qs, hqs, rfl⟩ := h
    rcases List.mem_cons.mp hp with rfl | hmem
    · exact Or.inl ⟨ticket, message, rfl⟩
    · rcases listPieces_mem _ _ _ _ hqs p hmem with rfl | ⟨x, k, hx⟩
      · exact Or.inr (Or.inl rfl)
      · obtain ⟨text, rfl, _⟩ := questionPiece_shape x k p hx
        exact Or.inr (Or.inr ⟨k + 1, text, rfl⟩)
  · simp only [supportPieces, ht, pure_eq_ok, Except.ok.injEq, Bool.false_eq_true,
      if_false] at h
    subst h
    cases hp

theorem listPieces_not_mem (list : JsVal) (header : Piece)
    (f : JsVal → Nat → Except Fault Piece) (ps : List Piece)
    (h : listPieces list header f = .ok ps) (q : Piece) (hq : q ≠ header)
    (hf : ∀ x k, f x k ≠ .ok q) : q ∉ ps := by
  intro hmem
  rcases listPieces_mem list header f ps h q hmem with rfl | ⟨x, k, hx⟩
  · exact hq rfl
  · exact hf x k hx

theorem recommendationPiece_ne_header (x : JsVal) (k : Nat) :
    recommendationPiece x k ≠ .ok .recommendationsHeader
    ∧ recommendationPiece x k ≠ .ok .bundlesHeader := by
  constructor <;> intro h <;>
    obtain ⟨_, _, _, _, _, _, h1, _⟩ := recommendationPiece_shape x k _ h <;> cases h1

theorem bundlePiece_ne_header (x : JsVal) (k : Nat) :
    bundlePiece x k ≠ .ok .recommendationsHeader ∧ bundlePiece x k ≠ .ok .bundlesHeader := by
  constructor <;> intro h <;>
    obtain ⟨_, _, _, _, _, h1, _⟩ := bundlePiece_shape x k _ h <;> cases h1

theorem questionPiece_ne_header (x : JsVal) (k : Nat) :
    questionPiece x k ≠ .ok .recommendationsHeader
    ∧ questionPiece x k ≠ .ok .bundlesHeader := by
  constructor <;> intro h <;>
    obtain ⟨_, h1, _⟩ := questionPiece_shape x k _ h <;> cases h1

theorem supportPieces_not_mem (support : JsVal) (t : List Piece)
    (h : supportPieces support = .ok t) :
    Piece.recommendationsHeader ∉ t ∧ Piece.bundlesHeader ∉ t := by
  constructor <;> intro hmem <;>
    rcases supportPieces_mem support t h _ hmem with ⟨_, _, h1⟩ | h1 | ⟨_, _, h1⟩ <;> cases h1

theorem formatFinal_ok (finalData : JsVal) (out : String)
    (h : formatFinal finalData = .ok out) :
    ∃ ps, formatFinalPieces finalData = .ok ps ∧ out = render ps := by
  rw [formatFinal_eq_render] at h
  obtain ⟨ps, hps, hr⟩ := bind_eq_ok.mp h
  simp only [pure_eq_ok, Except.ok.injEq] at hr
  exact ⟨ps, hps, hr.symm⟩

/-- C8: when the `sales` field of a final result is present, the output of
`formatFinal` is the Classification section, then the Sales header line
with the ticket id and the message to the representative, then the rest.
If `recommendations` is absent or empty, no Recommendations sub-header is
emitted anywhere in the output, and if `bundles` is absent or empty, no
Bundle Options sub-header is. -/
theorem sales_ticket_and_no_empty_subheaders (finalData sales : JsVal) (out : String)
    (hout : formatFinal finalData = .ok out)
    (hsales : getProp finalData "sales" = .ok sales) (hpresent : truthy sales = true) :
    ∃ c ticket message rest,
      formatFinalPieces finalData = .ok (c :: Piece.salesTicket ticket message :: rest)
      ∧ out = c.text ++ ("\n🧾 Sales Ticket: " ++ ticket ++ "\n" ++ message ++ "\n")
          ++ render rest
      ∧ field sales "ticket_id" = .ok ticket
      ∧ field sales "message_to_rep" = .ok message
      ∧ (∀ recs, getProp sales "recommendations" = .ok recs →
          recs = undefined ∨ recs = null ∨ recs = arr [] →
          Piece.recommendationsHeader ∉ c :: Piece.salesTicket ticket message :: rest)
      ∧ (∀ bundles, getProp sales "bundles" = .ok bundles →
          bundles = undefined ∨ bundles = null ∨ bundles = arr [] →
          Piece.bundlesHeader ∉ c :: Piece.salesTicket ticket message :: rest) := by
  obtain ⟨ps, hps, rfl⟩ := formatFinal_ok finalData out hout
  obtain ⟨cls, c, ticket, message, recs0, recPieces, bundles0, bundlePieces, questions,
    questionPieces, support, t, hc, h1, h2, h3, h4, h5, h6, h7, h8, ht, rfl⟩ :=
    formatFinalPieces_split finalData sales ps hps hsales hpresent
  obtain ⟨ca, cb, cc, cd, rfl⟩ := classificationPiece_shape cls c hc
  have hq1 := listPieces_not_mem _ _ _ _ h8 .recommendationsHeader (by decide)
    (fun x k => (questionPiece_ne_header x k).1)
  have hq2 := listPieces_not_mem _ _ _ _ h8 .bundlesHeader (by decide)
    (fun x k => (questionPiece_ne_header x k).2)
  have hb1 := listPieces_not_mem _ _ _ _ h6 .recommendationsHeader (by decide)
    (fun x k => (bundlePiece_ne_header x k).1)
  have hr2 := listPieces_not_mem _ _ _ _ h4 .bundlesHeader (by decide)
    (fun x k => (recommendationPiece_ne_header x k).2)
  obtain ⟨ht1, ht2⟩ := supportPieces_not_mem support t ht
  refine ⟨Piece.classification ca cb cc cd, ticket, message,
    recPieces ++ bundlePieces ++ questionPieces ++ t, hps, ?_, h1, h2, ?_, ?_⟩
  · simp [render, Piece.text, String.append_assoc]
  · intro recs hrecs hempty
    rw [h3] at hrecs
    cases hrecs
    rw [listPieces_absent_or_empty _ _ _ hempty] at h4
    cases h4
    simp [hb1, hq1, ht1]
  · intro bundles hbundles hempty
    rw [h5] at hbundles
    cases hbundles
    rw [listPieces_absent_or_empty _ _ _ hempty] at h6
    cases h6
    simp [hr2, hq2, ht2]

theorem sales_ticket_and_no_empty_subheaders_witness :
    ∃ c ticket message rest,
      formatFinalPieces (obj [("classification", obj [("category", str "sales"),
          ("intent", str "quote"), ("confidence", dec 87 (-2)), ("reasoning", str "asks a price")]),
        ("sales", obj [("ticket_id", str "S-7"), ("message_to_rep", str "Call back"),
          ("recommendations", arr []), ("bundles", arr [])])])
        = .ok (c :: Piece.salesTicket ticket message :: rest)
      ∧ "✅ Classification:\n- Category: sales\n- Intent: quote\n- Confidence: 0.87\n- Reasoning: asks a price\n\n🧾 Sales Ticket: S-7\nCall back\n"
        = c.text ++ ("\n🧾 Sales Ticket: " ++ ticket ++ "\n" ++ message ++ "\n") ++ render rest
      ∧ field (obj [("ticket_id", str "S-7"), ("message_to_rep", str "Call back"),
          ("recommendations", arr []), ("bundles", arr [])]) "ticket_id" = .ok ticket
      ∧ field (obj [("ticket_id", str "S-7"), ("message_to_rep", str "Call back"),
          ("recommendations", arr []), ("bundles", arr [])]) "message_to_rep" = .ok message
      ∧ Piece.recommendationsHeader ∉ c :: Piece.salesTicket ticket message :: rest
      ∧ Piece.bundlesHeader ∉ c :: Piece.salesTicket ticket message :: rest :=
  have ⟨c, ticket, message, rest, h1, h2, h3, h4, h5, h6⟩ :=
    sales_ticket_and_no_empty_subheaders
      (obj [("classification", obj [("category", str "sales"),
          ("intent", str "quote"), ("confidence", dec 87 (-2)), ("reasoning", str "asks a price")]),
        ("sales", obj [("ticket_id", str "S-7"), ("message_to_rep", str "Call back"),
          ("recommendations", arr []), ("bundles", arr [])])])
      (obj [("ticket_id", str "S-7"), ("message_to_rep", str "Call back"),
          ("recommendations", arr []), ("bundles", arr [])])
      "✅ Classification:\n- Category: sales\n- Intent: quote\n- Confidence: 0.87\n- Reasoning: asks a price\n\n🧾 Sales Ticket: S-7\nCall back\n"
      (by rfl) rfl rfl
  ⟨c, ticket, message, rest, h1, h2, h3, h4,
    h5 (arr []) rfl (Or.inr (Or.inr rfl)), h6 (arr []) rfl (Or.inr (Or.inr rfl))⟩

theorem listPieces_nonempty (items : List JsVal) (header : Piece)
    (f : JsVal → Nat → Except Fault Piece) (ps : List Piece) (hne : items ≠ [])
    (h : listPieces (arr items) header f = .ok ps) :
    ∃ rest, entries f items 0 = .ok rest ∧ ps = header :: rest := by
  rcases listPieces_cases _ _ _ _ h with rfl | ⟨items1, rest, harr, hrest, rfl⟩
  · cases items with
    | nil => exact absurd rfl hne
    | cons x xs =>
      simp only [listPieces, optLength, isNullish, getProp, bind_ok, if_true] at h
      have ht : truthy (num ((x :: xs).length : Nat)) = true := by
        simp [truthy]
        omega
      simp only [Bool.false_eq_true, if_false, bind_ok, ht, if_true, bind_eq_ok, pure_eq_ok,
        Except.ok.injEq] at h
      obtain ⟨_, _, h⟩ := h
      cases h
  · cases harr
    exact ⟨rest, hrest, rfl⟩

/-- C9: when the `bundles` list of a present `sales` field is not empty, the
output of `formatFinal` contains the sub-header `Bundle Options (sorted by
price)` exactly once, directly followed by one entry per bundle in the
order in which the bundles were received: the entry at position `k` (from
zero) carries the ordinal `k + 1` and the fields of the bundle at position
`k`. Nothing is sorted: for the bundles priced 29.99 and 10.5, received in
this order, the entry of the bundle priced 29.99 comes first. -/
theorem bundles_rendered_in_received_order (finalData sales : JsVal) (bs : List JsVal)
    (out : String) (hout : formatFinal finalData = .ok out)
    (hsales : getProp finalData "sales" = .ok sales) (hpresent : truthy sales = true)
    (hbundles : getProp sales "bundles" = .ok (arr bs)) (hne : bs ≠ []) :
    (∃ pre rendered post,
        formatFinalPieces finalData = .ok (pre ++ (Piece.bundlesHeader :: rendered) ++ post)
        ∧ out = render pre ++ "\n🎁 Bundle Options (sorted by price):\n" ++ render rendered
            ++ render post
        ∧ Piece.bundlesHeader ∉ pre ∧ Piece.bundlesHeader ∉ post
        ∧ rendered.length = bs.length
        ∧ ∀ (k : Nat) (b : JsVal), bs[k]? = some b →
            ∃ name total items score reasoning,
              rendered[k]? = some (Piece.bundle (k + 1) name total items score reasoning)
              ∧ field b "name" = .ok name ∧ field b "total_price_usd" = .ok total
              ∧ ((getProp b "items").bind fun xs => join xs ", ") = .ok items
              ∧ field b "score" = .ok score ∧ field b "reasoning" = .ok reasoning)
    ∧ formatFinal (obj [("classification", obj []),
        ("sales", obj [("ticket_id", str "S-1"), ("message_to_rep", str "Offer"),
          ("bundles", arr [
            obj [("name", str "Pro"), ("total_price_usd", dec 2999 (-2)),
              ("items", arr [str "a", str "b"]), ("score", dec 9 (-1)), ("reasoning", str "best")],
            obj [("name", str "Basic"), ("total_price_usd", dec 105 (-1)),
              ("items", arr [str "a"]), ("score", dec 5 (-1)), ("reasoning", str "cheap")]])])])
      = .ok ("✅ Classification:\n- Category: undefined\n- Intent: undefined\n"
          ++ "- Confidence: undefined\n- Reasoning: undefined\n"
          ++ "\n🧾 Sales Ticket: S-1\nOffer\n"
          ++ "\n🎁 Bundle Options (sorted by price):\n"
          ++ "  1) Pro - $29.99\n     Items: a, b\n     Score: 0.9\n     Reason: best\n"
          ++ "  2) Basic - $10.5\n     Items: a\n     Score: 0.5\n     Reason: cheap\n") := by
  obtain ⟨ps, hps, rfl⟩ := formatFinal_ok finalData out hout
  obtain ⟨cls, c, ticket, message, recs0, recPieces, bundles0, bundlePieces, questions,
    questionPieces, support, t, hc, h1, h2, h3, h4, h5, h6, h7, h8, ht, rfl⟩ :=
    formatFinalPieces_split finalData sales ps hps hsales hpresent
  obtain ⟨ca, cb, cc, cd, rfl⟩ := classificationPiece_shape cls c hc
  rw [hbundles] at h5
  cases h5
  obtain ⟨rendered, hrendered, rfl⟩ := listPieces_nonempty bs _ _ _ hne h6
  obtain ⟨hlen, hget⟩ := entries_getElem _ _ _ _ hrendered
  have hq2 := listPieces_not_mem _ _ _ _ h8 .bundlesHeader (by decide)
    (fun x k => (questionPiece_ne_header x k).2)
  have hr2 := listPieces_not_mem _ _ _ _ h4 .bundlesHeader (by decide)
    (fun x k => (recommendationPiece_ne_header x k).2)
  obtain ⟨_, ht2⟩ := supportPieces_not_mem support t ht
  refine ⟨⟨Piece.classification ca cb cc cd :: Piece.salesTicket ticket message
    :: recPieces, rendered, questionPieces ++ t, ?_, ?_, ?_, ?_, hlen, ?_⟩, rfl⟩
  · rw [hps]
    simp [List.append_assoc]
  · simp [render, render_append, Piece.text, String.append_assoc]
  · simp [hr2]
  · simp [hq2, ht2]
  · intro k b hk
    obtain ⟨p, hp, hf⟩ := hget k b hk
    rw [Nat.zero_add] at hf
    obtain ⟨name, total, items, score, reasoning, rfl, g1, g2, g3, g4, g5⟩ :=
      bundlePiece_shape b k p hf
    exact ⟨name, total, items, score, reasoning, hp, g1, g2, g3, g4, g5⟩

theorem bundles_rendered_in_received_order_witness :
    ∃ pre rendered post,
      formatFinalPieces (obj [("classification", obj []),
        ("sales", obj [("ticket_id", str "S-1"), ("message_to_rep", str "Offer"),
          ("bundles", arr [
            obj [("name", str "Pro"), ("total_price_usd", dec 2999 (-2)),
              ("items", arr [str "a", str "b"]), ("score", dec 9 (-1)), ("reasoning", str "best")],
            obj [("name", str "Basic"), ("total_price_usd", dec 105 (-1)),
              ("items", arr [str "a"]), ("score", dec 5 (-1)), ("reasoning", str "cheap")]])])])
        = .ok (pre ++ (Piece.bundlesHeader :: rendered) ++ post)
      ∧ Piece.bundlesHeader ∉ pre ∧ Piece.bundlesHeader ∉ post
      ∧ rendered.length = 2
      ∧ (∃ name total items score reasoning,
          rendered[0]? = some (Piece.bundle 1 name total items score reasoning)
          ∧ total = "29.99")
      ∧ (∃ name total items score reasoning,
          rendered[1]? = some (Piece.bundle 2 name total items score reasoning)
          ∧ total = "10.5") :=
  have ⟨pre, rendered, post, h1, _, h3, h4, h5, h6⟩ :=
    (bundles_rendered_in_received_order (obj [("classification", obj []),
        ("sales", obj [("ticket_id", str "S-1"), ("message_to_rep", str "Offer"),
          ("bundles", arr [
            obj [("name", str "Pro"), ("total_price_usd", dec 2999 (-2)),
              ("items", arr [str "a", str "b"]), ("score", dec 9 (-1)), ("reasoning", str "best")],
            obj [("name", str "Basic"), ("total_price_usd", dec 105 (-1)),
              ("items", arr [str "a"]), ("score", dec 5 (-1)), ("reasoning", str "cheap")]])])])
      (obj [("ticket_id", str "S-1"), ("message_to_rep", str "Offer"),
          ("bundles", arr [
            obj [("name", str "Pro"), ("total_price_usd", dec 2999 (-2)),
              ("items", arr [str "a", str "b"]), ("score", dec 9 (-1)), ("reasoning", str "best")],
            obj [("name", str "Basic"), ("total_price_usd", dec 105 (-1)),
              ("items", arr [str "a"]), ("score", dec 5 (-1)), ("reasoning", str "cheap")]])])
      [obj [("name", str "Pro"), ("total_price_usd", dec 2999 (-2)),
          ("items", arr [str "a", str "b"]), ("score", dec 9 (-1)), ("reasoning", str "best")],
        obj [("name", str "Basic"), ("total_price_usd", dec 105 (-1)),
          ("items", arr [str "a"]), ("score", dec 5 (-1)), ("reasoning", str "cheap")]]
      ("✅ Classification:\n- Category: undefined\n- Intent: undefined\n"
          ++ "- Confidence: undefined\n- Reasoning: undefined\n"
          ++ "\n🧾 Sales Ticket: S-1\nOffer\n"
          ++ "\n🎁 Bundle Options (sorted by price):\n"
          ++ "  1) Pro - $29.99\n     Items: a, b\n     Score: 0.9\n     Reason: best\n"
          ++ "  2) Basic - $10.5\n     Items: a\n     Score: 0.5\n     Reason: cheap\n")
      rfl rfl rfl rfl (by simp)).1
  have ⟨n0, t0, i0, s0, r0, e0, _, ht0, _⟩ := h6 0 _ rfl
  have ⟨n1, t1, i1, s1, r1, e1, _, ht1, _⟩ := h6 1 _ rfl
  ⟨pre, rendered, post, h1, h3, h4, h5,
    ⟨n0, t0, i0, s0, r0, e0, (Except.ok.inj ht0).symm⟩,
    ⟨n1, t1, i1, s1, r1, e1, (Except.ok.inj ht1).symm⟩⟩

theorem report_is_classification_sales_support_witness :
    formatFinal (obj [("classification", obj [("category", str "mixed"),
          ("intent", str "order and complaint"), ("confidence", dec 87 (-2)),
          ("reasoning", str "two requests")]),
        ("sales", obj [("ticket_id", str "S-2"), ("message_to_rep", str "Send a quote")]),
        ("support", obj [("ticket_id", str "H-9"), ("message_to_rep", str "Reset the device")])])
      = .ok ("✅ Classification:\n- Category: mixed\n- Intent: order and complaint\n"
          ++ "- Confidence: 0.87\n- Reasoning: two requests\n"
          ++ "\n🧾 Sales Ticket: S-2\nSend a quote\n"
          ++ "\n🛠 Support Ticket: H-9\nReset the device\n")
    ∧ salesPieces null = .ok []
    ∧ (∃ ticket message rest, field (obj [("ticket_id", str "S-2"),
          ("message_to_rep", str "Send a quote")]) "ticket_id" = .ok ticket
        ∧ field (obj [("ticket_id", str "S-2"),
          ("message_to_rep", str "Send a quote")]) "message_to_rep" = .ok message
        ∧ [Piece.salesTicket "S-2" "Send a quote"] = Piece.salesTicket ticket message :: rest)
    ∧ supportPieces undefined = .ok []
    ∧ (∃ ticket message rest, field (obj [("ticket_id", str "H-9"),
          ("message_to_rep", str "Reset the device")]) "ticket_id" = .ok ticket
        ∧ field (obj [("ticket_id", str "H-9"),
          ("message_to_rep", str "Reset the device")]) "message_to_rep" = .ok message
        ∧ [Piece.supportTicket "H-9" "Reset the device"]
          = Piece.supportTicket ticket message :: rest) :=
  ⟨(report_is_classification_sales_support.1 _).trans rfl,
    report_is_classification_sales_support.2.1 null rfl,
    report_is_classification_sales_support.2.2.1 _ _ rfl rfl,
    report_is_classification_sales_support.2.2.2.1 undefined rfl,
    report_is_classification_sales_support.2.2.2.2 _ _ rfl rfl⟩

/-! ## Runs of events -/

theorem feed_append (r : Run) (xs ys : List Event) :
    feed r (xs ++ ys) = (feed r xs).bind fun mid => feed mid ys := by
  induction xs generalizing r with
  | nil => rfl
  | cons e rest ih =>
    simp only [List.cons_append, feed]
    split
    · rfl
    · exact ih _

theorem onStatus_rendered (d : JsVal) (text : String) (progress : JsVal) (r : Run)
    (hargs : statusArgs (some d) = .ok (text, progress))
    (hprogress : progress.isNullish = true ∨ ∃ n, toNumber progress = .ok n) :
    ∃ width, onStatus (some d) r
      = ({ r with page := { r.page with statusText := text, width := width,
                                        renders := r.page.renders + 1 } }, none) := by
  by_cases hnull : progress.isNullish = true
  · exact ⟨r.page.width, by simp [onStatus, hargs, setStatus, hnull, or_empty]⟩
  · rcases hprogress with h | ⟨n, hn⟩
    · exact absurd h hnull
    · exact ⟨toString (max 0 (min 100 n)) ++ "%",
        by simp [onStatus, hargs, setStatus, hnull, hn, or_empty]⟩

theorem feed_statuses (statuses : List JsVal) (r : Run) (hopen : r.closed = false)
    (hstatuses : ∀ d ∈ statuses, ∃ text progress,
      statusArgs (some d) = .ok (text, progress)
      ∧ (progress.isNullish = true ∨ ∃ n, toNumber progress = .ok n)) :
    ∃ mid, feed r (statuses.map fun d => Event.status (some d)) = some mid
      ∧ mid.page.chat = r.page.chat
      ∧ mid.page.renders = r.page.renders + statuses.length
      ∧ mid.closed = false ∧ mid.closeCalls = r.closeCalls := by
  induction statuses generalizing r with
  | nil => exact ⟨r, rfl, rfl, rfl, hopen, rfl⟩
  | cons d rest ih =>
    obtain ⟨text, progress, hargs, hprogress⟩ := hstatuses d (List.mem_cons_self d rest)
    obtain ⟨width, hstep⟩ := onStatus_rendered d text progress r hargs hprogress
    obtain ⟨mid, hfeed, hchat, hrenders, hclosed, hcalls⟩ :=
      ih { r with page := { r.page with statusText := text, width := width,
                                        renders := r.page.renders + 1 } } hopen
        (fun x hx => hstatuses x (List.mem_cons_of_mem d hx))
    have hdeliver : deliver r (Event.status (some d))
        = ({ r with page := { r.page with statusText := text, width := width,
                                          renders := r.page.renders + 1 } }, none) := by
      unfold deliver
      rw [if_neg (by simp [hopen])]
      exact hstep
    refine ⟨mid, ?_, hchat, ?_, hclosed, hcalls⟩
    · simp only [List.map_cons, feed, hdeliver]
      exact hfeed
    · rw [hrenders]
      simp only [List.length_cons]
      omega

/-- C5: a run that receives `k` status events and then one `final` event,
each with a payload the listeners can render (the status payloads give a
display text and a progress that is absent, `null`, or has an integer as
its numeric value; the final payload has a `data` field that `formatFinal`
turns into `text`). The `k` status
events make `setStatus` run exactly `k` times and append no bubble; the
`final` event then appends exactly one assistant bubble, whose text is
`formatFinal` of the `data` field, sets the status to `Done.` at `100%`
and closes the stream. -/
theorem statuses_then_final (statuses : List JsVal) (fin result : JsVal) (text : String)
    (r : Run) (hopen : r.closed = false)
    (hstatuses : ∀ d ∈ statuses, ∃ shown progress,
      statusArgs (some d) = .ok (shown, progress)
      ∧ (progress.isNullish = true ∨ ∃ n, toNumber progress = .ok n))
    (hdata : getProp fin "data" = .ok result) (htext : formatFinal result = .ok text) :
    ∃ mid,
      feed r (statuses.map fun d => Event.status (some d)) = some mid
      ∧ mid.page.chat = r.page.chat
      ∧ mid.page.renders = r.page.renders + statuses.length
      ∧ mid.closed = false
      ∧ feed r ((statuses.map fun d => Event.status (some d)) ++ [Event.final (some fin)])
        = some { page := { chat := r.page.chat ++ [⟨"assistant", text⟩],
                           statusText := "Done.", width := "100%",
                           renders := r.page.renders + statuses.length + 1 },
                 closed := true, closeCalls := r.closeCalls + 1 } := by
  obtain ⟨mid, hfeed, hchat, hrenders, hclosed, hcalls⟩ := feed_statuses statuses r hopen hstatuses
  refine ⟨mid, hfeed, hchat, hrenders, hclosed, ?_⟩
  rw [feed_append, hfeed]
  have hfinal : finalText (some fin) = .ok text := by
    simp only [finalText, jsonParse, hdata, htext, bind_ok]
  simp only [Option.bind, feed, deliver, hclosed, Bool.false_eq_true, if_false, onFinal, hfinal,
    setStatus_num, addBubble, hchat, hrenders, hcalls]
  rfl

theorem statuses_then_final_witness :
    ∃ mid,
      feed ⟨⟨[⟨"user", "Subject: Hi\n\nPlease quote"⟩], "Starting workflow...", "0%", 1⟩, false, 0⟩
          ([obj [("message", str "Reading"), ("step", str "parse"), ("progress", num 10)],
            obj [("message", str "Routing"), ("progress", num 50)]].map
            fun d => Event.status (some d)) = some mid
      ∧ mid.page.chat = [⟨"user", "Subject: Hi\n\nPlease quote"⟩]
      ∧ mid.page.renders = 1 + 2
      ∧ mid.closed = false
      ∧ feed ⟨⟨[⟨"user", "Subject: Hi\n\nPlease quote"⟩], "Starting workflow...", "0%", 1⟩, false, 0⟩
          (([obj [("message", str "Reading"), ("step", str "parse"), ("progress", num 10)],
            obj [("message", str "Routing"), ("progress", num 50)]].map
            fun d => Event.status (some d))
            ++ [Event.final (some (obj [("data", obj [("classification",
              obj [("category", str "sales"), ("intent", str "quote"), ("confidence", dec 87 (-2)),
                ("reasoning", str "asks a price")])])]))])
        = some { page := { chat := [⟨"user", "Subject: Hi\n\nPlease quote"⟩]
                    ++ [⟨"assistant", "✅ Classification:\n- Category: sales\n- Intent: quote\n- Confidence: 0.87\n- Reasoning: asks a price\n"⟩],
                           statusText := "Done.", width := "100%", renders := 1 + 2 + 1 },
                 closed := true, closeCalls := 0 + 1 } :=
  statuses_then_final
    [obj [("message", str "Reading"), ("step", str "parse"), ("progress", num 10)],
      obj [("message", str "Routing"), ("progress", num 50)]]
    (obj [("data", obj [("classification",
      obj [("category", str "sales"), ("intent", str "quote"), ("confidence", dec 87 (-2)),
        ("reasoning", str "asks a price")])])])
    (obj [("classification",
      obj [("category", str "sales"), ("intent", str "quote"), ("confidence", dec 87 (-2)),
        ("reasoning", str "asks a price")])])
    "✅ Classification:\n- Category: sales\n- Intent: quote\n- Confidence: 0.87\n- Reasoning: asks a price\n"
    ⟨⟨[⟨"user", "Subject: Hi\n\nPlease quote"⟩], "Starting workflow...", "0%", 1⟩, false, 0⟩
    rfl
    (by
      intro d hd
      simp only [List.mem_cons, List.mem_singleton, List.not_mem_nil, or_false] at hd
      rcases hd with rfl | rfl
      · exact ⟨"[parse] Reading", num 10, rfl, Or.inr ⟨10, rfl⟩⟩
      · exact ⟨"[processing] Routing", num 50, rfl, Or.inr ⟨50, rfl⟩⟩)
    rfl rfl

/-! ## The listeners, one event at a time -/

theorem onStatus_statusText (payload : Option JsVal) (text : String) (progress : JsVal)
    (r : Run) (hargs : statusArgs payload = .ok (text, progress)) :
    (onStatus payload r).1.page.statusText = text := by
  simp only [onStatus, hargs, setStatus]
  split
  · exact or_empty text
  · split <;> exact or_empty text

theorem statusArgs_eq (data msg stepField progress : JsVal) (s m : String)
    (hmsg : getProp data "message" = .ok msg) (hstep : getProp data "step" = .ok stepField)
    (hprogress : getProp data "progress" = .ok progress)
    (hs : toStr (if truthy stepField then stepField else str "processing") = .ok s)
    (hm : toStr msg = .ok m) :
    statusArgs (some data) = .ok ("[" ++ s ++ "] " ++ m, progress) := by
  simp only [statusArgs, jsonParse, hmsg, hstep, hprogress, hs, hm, bind_ok, pure_eq_ok]

theorem getProp_progress_ok (data msg : JsVal) (hmsg : getProp data "message" = .ok msg) :
    ∃ progress, getProp data "progress" = .ok progress := by
  cases data with
  | undefined => cases hmsg
  | null => cases hmsg
  | _ => exact ⟨_, rfl⟩

/-- C11 (as amended): for a status event whose payload has the message `msg`,
printed as `m`, the displayed status text is `"[" + s + "] " + m`, where `s`
is the text of the payload step when that step counts as true (a string
that is not empty), and `processing` when the payload has no step field or
its step counts as false (the empty string, `null`, `0`, `false`). -/
theorem status_text_is_step_and_message (data msg stepField : JsVal) (m : String) (r : Run)
    (hmsg : getProp data "message" = .ok msg) (hm : toStr msg = .ok m)
    (hstep : getProp data "step" = .ok stepField) :
    (∀ s, truthy stepField = true → toStr stepField = .ok s →
      (onStatus (some data) r).1.page.statusText = "[" ++ s ++ "] " ++ m)
    ∧ (truthy stepField = false →
      (onStatus (some data) r).1.page.statusText = "[" ++ "processing" ++ "] " ++ m) := by
  obtain ⟨progress, hprogress⟩ := getProp_progress_ok data msg hmsg
  constructor
  · intro s ht hs
    exact onStatus_statusText _ _ progress r
      (statusArgs_eq data msg stepField progress s m hmsg hstep hprogress (by simp [ht, hs]) hm)
  · intro hf
    exact onStatus_statusText _ _ progress r
      (statusArgs_eq data msg stepField progress "processing" m hmsg hstep hprogress
        (by simp [hf, toStr]) hm)

theorem status_text_is_step_and_message_witness :
    (onStatus (some (obj [("message", str "Classifying"), ("step", str "classify"),
        ("progress", num 20)])) ⟨⟨[], "", "0%", 1⟩, false, 0⟩).1.page.statusText
      = "[" ++ "classify" ++ "] " ++ "Classifying"
    ∧ (onStatus (some (obj [("message", str "Working")]))
        ⟨⟨[], "", "0%", 1⟩, false, 0⟩).1.page.statusText
      = "[" ++ "processing" ++ "] " ++ "Working" :=
  ⟨(status_text_is_step_and_message
      (obj [("message", str "Classifying"), ("step", str "classify"), ("progress", num 20)])
      (str "Classifying") (str "classify") "Classifying" ⟨⟨[], "", "0%", 1⟩, false, 0⟩
      rfl rfl rfl).1 "classify" rfl rfl,
    (status_text_is_step_and_message (obj [("message", str "Working")])
      (str "Working") undefined "Working" ⟨⟨[], "", "0%", 1⟩, false, 0⟩ rfl rfl rfl).2 rfl⟩

/-- C11 (the claim as stated fails): a payload whose step is the empty string
has a step field, yet the status text shows `processing`, not the empty
step. -/
theorem empty_step_displays_processing :
    getProp (obj [("message", str "Working"), ("step", str "")]) "step" = .ok (str "")
    ∧ (onStatus (some (obj [("message", str "Working"), ("step", str "")]))
        ⟨⟨[], "", "0%", 1⟩, false, 0⟩).1.page.statusText = "[processing] Working"
    ∧ (onStatus (some (obj [("message", str "Working"), ("step", str "")]))
        ⟨⟨[], "", "0%", 1⟩, false, 0⟩).1.page.statusText ≠ "[" ++ "" ++ "] " ++ "Working" := by
  refine ⟨rfl, rfl, ?_⟩
  decide

/-- C18: for a final event whose payload parses and whose `data` field
`formatFinal` turns into `text`, whatever the page showed before, the
listener returns without a fault with the status text `Done.` and the
progress bar at `100%`; it has appended the report and closed the stream. -/
theorem final_event_shows_done (data result : JsVal) (text : String) (r : Run)
    (hdata : getProp data "data" = .ok result) (htext : formatFinal result = .ok text) :
    onFinal (some data) r
      = ({ page := { chat := r.page.chat ++ [⟨"assistant", text⟩], statusText := "Done.",
                     width := "100%", renders := r.page.renders + 1 },
           closed := true, closeCalls := r.closeCalls + 1 }, none)
    ∧ (onFinal (some data) r).1.page.statusText = "Done."
    ∧ (onFinal (some data) r).1.page.width = "100%" := by
  have hfinal : finalText (some data) = .ok text := by
    simp only [finalText, jsonParse, hdata, htext, bind_ok]
  have h : onFinal (some data) r
      = ({ page := { chat := r.page.chat ++ [⟨"assistant", text⟩], statusText := "Done.",
                     width := "100%", renders := r.page.renders + 1 },
           closed := true, closeCalls := r.closeCalls + 1 }, none) := by
    simp only [onFinal, hfinal, setStatus_num, addBubble]
    rfl
  rw [h]
  exact ⟨rfl, rfl, rfl⟩

theorem final_event_shows_done_witness :
    onFinal (some (obj [("data", obj [("classification", obj [("category", str "support"),
        ("intent", str "reset"), ("confidence", dec 87 (-2)), ("reasoning", str "device")])])]))
        ⟨⟨[], "[route] Routing", "50%", 3⟩, false, 0⟩
      = (⟨⟨[⟨"assistant",
              "✅ Classification:\n- Category: support\n- Intent: reset\n- Confidence: 0.87\n- Reasoning: device\n"⟩],
            "Done.", "100%", 4⟩, true, 1⟩, none) :=
  (final_event_shows_done
    (obj [("data", obj [("classification", obj [("category", str "support"),
        ("intent", str "reset"), ("confidence", dec 87 (-2)), ("reasoning", str "device")])])])
    (obj [("classification", obj [("category", str "support"),
        ("intent", str "reset"), ("confidence", dec 87 (-2)), ("reasoning", str "device")])])
    "✅ Classification:\n- Category: support\n- Intent: reset\n- Confidence: 0.87\n- Reasoning: device\n"
    ⟨⟨[], "[route] Routing", "50%", 3⟩, false, 0⟩ rfl rfl).1

theorem onError_of_text (payload : Option JsVal) (text : String) (r : Run)
    (h : errorText payload = .ok text) :
    onError payload r
      = ({ page := { chat := r.page.chat ++ [⟨"assistant", text⟩], statusText := "Failed.",
                     width := "0%", renders := r.page.renders + 1 },
           closed := true, closeCalls := r.closeCalls + 1 }, none) := by
  simp only [onError, h, setStatus_num, addBubble]
  rfl

theorem onError_of_throw (payload : Option JsVal) (f : Fault) (r : Run)
    (h : errorText payload = .error f) :
    onError payload r
      = ({ page := { chat := r.page.chat ++ [⟨"assistant", "❌ Error: Streaming failed."⟩],
                     statusText := "Failed.", width := "0%",
                     renders := r.page.renders + 1 },
           closed := true, closeCalls := r.closeCalls + 1 }, none) := by
  simp only [onError, h, setStatus_num, addBubble]
  rfl

theorem errorText_some (data : JsVal) :
    errorText (some data) = (field data "message" >>= fun m => pure ("❌ Error: " ++ m)) := by
  simp only [errorText, jsonParse, bind_ok]

/-- C19 (as amended): for an error event whose payload parses as JSON and
whose `message` property can be read and printed as `m`, the appended
assistant bubble is the error prefix followed by `m`; a payload object
without a message field gives the prefix followed by `undefined`. The
generic failure message is used exactly when something throws inside the
`try` block: `JSON.parse` fails, or reading or printing `data.message`
throws, as it does for the payload `null`. In each case the listener sets
the status to `Failed.` at `0%` and closes the stream. -/
theorem error_bubble_text :
    (∀ (data : JsVal) (m : String) (r : Run), field data "message" = .ok m →
      onError (some data) r
        = ({ page := { chat := r.page.chat ++ [⟨"assistant", "❌ Error: " ++ m⟩],
                       statusText := "Failed.", width := "0%",
                       renders := r.page.renders + 1 },
             closed := true, closeCalls := r.closeCalls + 1 }, none))
    ∧ (∀ (fields : List (String × JsVal)) (r : Run), fields.lookup "message" = none →
      onError (some (obj fields)) r
        = ({ page := { chat := r.page.chat ++ [⟨"assistant", "❌ Error: undefined"⟩],
                       statusText := "Failed.", width := "0%",
                       renders := r.page.renders + 1 },
             closed := true, closeCalls := r.closeCalls + 1 }, none))
    ∧ (∀ (payload : Option JsVal) (r : Run),
      (∃ data m, payload = some data ∧ field data "message" = .ok m
        ∧ (onError payload r).1.page.chat = r.page.chat ++ [⟨"assistant", "❌ Error: " ++ m⟩])
      ∨ ((payload = none ∨ ∃ data f, payload = some data ∧ field data "message" = .error f)
          ∧ (onError payload r).1.page.chat
            = r.page.chat ++ [⟨"assistant", "❌ Error: Streaming failed."⟩])) := by
  refine ⟨?_, ?_, ?_⟩
  · intro data m r hm
    exact onError_of_text (some data) _ r (by rw [errorText_some, hm]; rfl)
  · intro fields r hm
    exact onError_of_text (some (obj fields)) _ r
      (by rw [errorText_some]; simp [field, getProp, hm, toStr, bind_ok, ebind_ok, pure_eq_ok])
  · intro payload r
    cases payload with
    | none =>
      refine Or.inr ⟨Or.inl rfl, ?_⟩
      rw [onError_of_throw none .syntaxError r rfl]
    | some data =>
      cases hm : field data "message" with
      | ok m =>
        refine Or.inl ⟨data, m, rfl, hm, ?_⟩
        rw [onError_of_text (some data) _ r (by rw [errorText_some, hm]; rfl)]
      | error f =>
        refine Or.inr ⟨Or.inr ⟨data, f, rfl, hm⟩, ?_⟩
        rw [onError_of_throw (some data) f r (by rw [errorText_some, hm]; rfl)]

theorem error_bubble_text_witness :
    onError (some (obj [("message", str "Workflow crashed")])) ⟨⟨[], "[run] Busy", "30%", 2⟩, false, 0⟩
      = (⟨⟨[⟨"assistant", "❌ Error: Workflow crashed"⟩], "Failed.", "0%", 3⟩, true, 1⟩, none)
    ∧ onError (some (obj [("code", num 7)])) ⟨⟨[], "[run] Busy", "30%", 2⟩, false, 0⟩
      = (⟨⟨[⟨"assistant", "❌ Error: undefined"⟩], "Failed.", "0%", 3⟩, true, 1⟩, none)
    ∧ onError (some (obj [("message", num 18446744073709551616)]))
        ⟨⟨[], "[run] Busy", "30%", 2⟩, false, 0⟩
      = (⟨⟨[⟨"assistant", "❌ Error: " ++ "18446744073709552000"⟩], "Failed.", "0%", 3⟩, true, 1⟩,
          none)
    ∧ onError (some (obj [("message", dec 25 (-1))])) ⟨⟨[], "[run] Busy", "30%", 2⟩, false, 0⟩
      = (⟨⟨[⟨"assistant", "❌ Error: " ++ "2.5"⟩], "Failed.", "0%", 3⟩, true, 1⟩, none) :=
  ⟨error_bubble_text.1 (obj [("message", str "Workflow crashed")]) "Workflow crashed"
      ⟨⟨[], "[run] Busy", "30%", 2⟩, false, 0⟩ rfl,
    error_bubble_text.2.1 [("code", num 7)] ⟨⟨[], "[run] Busy", "30%", 2⟩, false, 0⟩ rfl,
    error_bubble_text.1 (obj [("message", num 18446744073709551616)]) "18446744073709552000"
      ⟨⟨[], "[run] Busy", "30%", 2⟩, false, 0⟩ (by rfl),
    error_bubble_text.1 (obj [("message", dec 25 (-1))]) "2.5"
      ⟨⟨[], "[run] Busy", "30%", 2⟩, false, 0⟩ (by rfl)⟩

/-- C19 (the claim as stated fails): the payload `null` parses as JSON, yet
reading `data.message` throws inside `try`, so the bubble carries the
generic failure message although parsing did not fail. -/
theorem null_error_payload_uses_generic_message :
    jsonParse (some null) = .ok null
    ∧ onError (some null) ⟨⟨[], "[run] Busy", "30%", 2⟩, false, 0⟩
      = (⟨⟨[⟨"assistant", "❌ Error: Streaming failed."⟩], "Failed.", "0%", 3⟩, true, 1⟩, none) := by
  constructor <;> rfl

/-- C14 (the claim fails on the code): a status event whose payload does not
parse makes the `status` listener throw, and a final event whose payload
does not parse, or whose `data` lacks a classification, makes the `final`
listener throw. In each case the run is left exactly as it was: no bubble,
no failed status, no progress reset, and the stream stays open. The `error`
listener handles the same unparsable payload without throwing. -/
theorem malformed_status_or_final_event_throws (r : Run) :
    onStatus none r = (r, some .syntaxError)
    ∧ onFinal none r = (r, some .syntaxError)
    ∧ onFinal (some (obj [("data", obj [("sales", null)])])) r = (r, some .typeError)
    ∧ onError none r
      = ({ page := { chat := r.page.chat ++ [⟨"assistant", "❌ Error: Streaming failed."⟩],
                     statusText := "Failed.", width := "0%",
                     renders := r.page.renders + 1 },
           closed := true, closeCalls := r.closeCalls + 1 }, none) := by
  refine ⟨?_, ?_, ?_, ?_⟩ <;> rfl

/-! ## Valid submissions -/

theorem sendClick_valid (subjectValue bodyValue : String) (files : List String)
    (reply : FetchReply) (w : Browser)
    (hsubject : trim subjectValue ≠ "") (hbody : trim bodyValue ≠ "") :
    sendClick subjectValue bodyValue files reply w
      = (match reply with
        | .rejected =>
          ({ w with
              page := { chat := w.page.chat ++ [⟨"user", "Subject: " ++ trim subjectValue
                          ++ "\n\n" ++ trim bodyValue⟩],
                        statusText := "Starting workflow...", width := "0%",
                        renders := w.page.renders + 1 },
              requests := w.requests ++ [⟨"/api/start", "POST",
                [("subject", FormValue.text (trim subjectValue)),
                  ("body", FormValue.text (trim bodyValue))]
                  ++ files.map fun f => ("attachments", FormValue.file f)⟩] },
            some .typeError)
        | .response _ none =>
          ({ w with
              page := { chat := w.page.chat ++ [⟨"user", "Subject: " ++ trim subjectValue
                          ++ "\n\n" ++ trim bodyValue⟩],
                        statusText := "Starting workflow...", width := "0%",
                        renders := w.page.renders + 1 },
              requests := w.requests ++ [⟨"/api/start", "POST",
                [("subject", FormValue.text (trim subjectValue)),
                  ("body", FormValue.text (trim bodyValue))]
                  ++ files.map fun f => ("attachments", FormValue.file f)⟩] },
            some .syntaxError)
        | .response _ (some payload) =>
          match field payload "run_id" with
          | .error f =>
            ({ w with
                page := { chat := w.page.chat ++ [⟨"user", "Subject: " ++ trim subjectValue
                            ++ "\n\n" ++ trim bodyValue⟩],
                          statusText := "Starting workflow...", width := "0%",
                          renders := w.page.renders + 1 },
                requests := w.requests ++ [⟨"/api/start", "POST",
                  [("subject", FormValue.text (trim subjectValue)),
                    ("body", FormValue.text (trim bodyValue))]
                    ++ files.map fun f => ("attachments", FormValue.file f)⟩] },
              some f)
          | .ok runId =>
            ({ page := { chat := w.page.chat ++ [⟨"user", "Subject: " ++ trim subjectValue
                            ++ "\n\n" ++ trim bodyValue⟩],
                          statusText := "Starting workflow...", width := "0%",
                          renders := w.page.renders + 1 },
                requests := w.requests ++ [⟨"/api/start", "POST",
                  [("subject", FormValue.text (trim subjectValue)),
                    ("body", FormValue.text (trim bodyValue))]
                    ++ files.map fun f => ("attachments", FormValue.file f)⟩],
                streams := w.streams ++ ["/api/stream/" ++ runId] },
              none)) := by
  have hguard : ¬ (trim subjectValue = "" ∨ trim bodyValue = "") := by
    rintro (h | h)
    · exact hsubject h
    · exact hbody h
  have hzero : toString (max 0 (min 100 (0 : Int))) ++ "%" = "0%" := by decide
  simp only [sendClick, hguard, if_false, setStatus_num, addBubble, hzero]

theorem sendClick_valid_chat (subjectValue bodyValue : String) (files : List String)
    (reply : FetchReply) (w : Browser)
    (hsubject : trim subjectValue ≠ "") (hbody : trim bodyValue ≠ "") :
    (sendClick subjectValue bodyValue files reply w).1.page
      = { chat := w.page.chat ++ [⟨"user", "Subject: " ++ trim subjectValue
                    ++ "\n\n" ++ trim bodyValue⟩],
          statusText := "Starting workflow...", width := "0%",
          renders := w.page.renders + 1 }
    ∧ (sendClick subjectValue bodyValue files reply w).1.requests
      = w.requests ++ [⟨"/api/start", "POST",
          [("subject", FormValue.text (trim subjectValue)),
            ("body", FormValue.text (trim bodyValue))]
            ++ files.map fun f => ("attachments", FormValue.file f)⟩] := by
  rw [sendClick_valid subjectValue bodyValue files reply w hsubject hbody]
  cases reply with
  | rejected => exact ⟨rfl, rfl⟩
  | response status body =>
    cases body with
    | none => exact ⟨rfl, rfl⟩
    | some payload =>
      simp only []
      cases field payload "run_id" <;> exact ⟨rfl, rfl⟩

/-- C12 (as amended): when subject and body are both non-empty after
trimming, the click handler appends exactly one bubble, of role `user`,
whose text is `Subject: ` followed by the trimmed subject, an empty line
and the trimmed body. The bubble is on the page whatever becomes of the
request, which is issued once and carries the same trimmed texts. When the
entered subject and body have no white space at either end, the bubble
carries them exactly as entered. -/
theorem user_bubble_carries_trimmed_input (subjectValue bodyValue : String)
    (files : List String) (reply : FetchReply) (w : Browser)
    (hsubject : trim subjectValue ≠ "") (hbody : trim bodyValue ≠ "") :
    (sendClick subjectValue bodyValue files reply w).1.page.chat
      = w.page.chat ++ [⟨"user", "Subject: " ++ trim subjectValue ++ "\n\n"
          ++ trim bodyValue⟩]
    ∧ (sendClick subjectValue bodyValue files reply w).1.requests
      = w.requests ++ [⟨"/api/start", "POST",
          [("subject", FormValue.text (trim subjectValue)),
            ("body", FormValue.text (trim bodyValue))]
            ++ files.map fun f => ("attachments", FormValue.file f)⟩]
    ∧ (trim subjectValue = subjectValue → trim bodyValue = bodyValue →
        (sendClick subjectValue bodyValue files reply w).1.page.chat
          = w.page.chat ++ [⟨"user", "Subject: " ++ subjectValue ++ "\n\n" ++ bodyValue⟩]) := by
  obtain ⟨hpage, hrequests⟩ :=
    sendClick_valid_chat subjectValue bodyValue files reply w hsubject hbody
  refine ⟨by rw [hpage], hrequests, ?_⟩
  intro h1 h2
  rw [hpage, h1, h2]

theorem user_bubble_carries_trimmed_input_witness :
    (sendClick "  Refund " "Order 7\n" [] .rejected ⟨⟨[], "", "", 0⟩, [], []⟩).1.page.chat
      = [] ++ [⟨"user", "Subject: " ++ trim "  Refund " ++ "\n\n" ++ trim "Order 7\n"⟩] :=
  (user_bubble_carries_trimmed_input "  Refund " "Order 7\n" [] .rejected
    ⟨⟨[], "", "", 0⟩, [], []⟩ (by decide) (by decide)).1

/-- C12 (the claim as stated fails): a subject entered with leading blanks
and a body entered with a trailing line break are shown without them, so
the bubble does not carry the texts exactly as entered. -/
theorem user_bubble_is_not_verbatim :
    trim "  Refund " ≠ "" ∧ trim "Order 7\n" ≠ ""
    ∧ (sendClick "  Refund " "Order 7\n" [] (.response 200 (some (obj [("run_id", str "r1")])))
        ⟨⟨[], "", "", 0⟩, [], []⟩).1.page.chat
      = [⟨"user", "Subject: Refund\n\nOrder 7"⟩]
    ∧ (sendClick "  Refund " "Order 7\n" [] (.response 200 (some (obj [("run_id", str "r1")])))
        ⟨⟨[], "", "", 0⟩, [], []⟩).1.page.chat
      ≠ [⟨"user", "Subject: " ++ "  Refund " ++ "\n\n" ++ "Order 7\n"⟩] := by
  refine ⟨by decide, by decide, by decide, by decide⟩

/-- C13 (as amended): for a valid submission, the click handler appends no
assistant bubble whatever the outcome of the request. When `fetch` rejects,
or the body of the response is not JSON, the handler stops there and opens
no event stream. The status of the response is never inspected: a response
with a JSON body opens the stream of its printed `run_id` whether its
status is a success or not. -/
theorem failed_submission_shows_no_error (subjectValue bodyValue : String)
    (files : List String) (w : Browser)
    (hsubject : trim subjectValue ≠ "") (hbody : trim bodyValue ≠ "") :
    (∀ reply : FetchReply,
      (sendClick subjectValue bodyValue files reply w).1.page.chat
        = w.page.chat ++ [⟨"user", "Subject: " ++ trim subjectValue ++ "\n\n"
            ++ trim bodyValue⟩])
    ∧ (sendClick subjectValue bodyValue files .rejected w).1.streams = w.streams
    ∧ (sendClick subjectValue bodyValue files .rejected w).2 = some .typeError
    ∧ (∀ status : Nat,
        (sendClick subjectValue bodyValue files (.response status none) w).1.streams = w.streams
        ∧ (sendClick subjectValue bodyValue files (.response status none) w).2
          = some .syntaxError)
    ∧ (∀ (status other : Nat) (body : Option JsVal),
        sendClick subjectValue bodyValue files (.response status body) w
          = sendClick subjectValue bodyValue files (.response other body) w)
    ∧ (∀ (status : Nat) (payload : JsVal) (runId : String),
        field payload "run_id" = .ok runId →
        (sendClick subjectValue bodyValue files (.response status (some payload)) w).1.streams
          = w.streams ++ ["/api/stream/" ++ runId]) := by
  refine ⟨?_, ?_, ?_, ?_, ?_, ?_⟩
  · intro reply
    rw [(sendClick_valid_chat subjectValue bodyValue files reply w hsubject hbody).1]
  · rw [sendClick_valid subjectValue bodyValue files _ w hsubject hbody]
  · rw [sendClick_valid subjectValue bodyValue files _ w hsubject hbody]
  · intro status
    rw [sendClick_valid subjectValue bodyValue files _ w hsubject hbody]
    exact ⟨rfl, rfl⟩
  · intro status other body
    rw [sendClick_valid subjectValue bodyValue files _ w hsubject hbody,
      sendClick_valid subjectValue bodyValue files _ w hsubject hbody]
    cases body <;> rfl
  · intro status payload runId hrun
    rw [sendClick_valid subjectValue bodyValue files _ w hsubject hbody]
    simp only [hrun]

theorem failed_submission_shows_no_error_witness :
    (sendClick "Refund" "Order 7" [] .rejected ⟨⟨[], "", "", 0⟩, [], []⟩).1.streams = []
    ∧ (sendClick "Refund" "Order 7" [] (.response 500 (some (obj [("detail", str "boom")])))
        ⟨⟨[], "", "", 0⟩, [], []⟩).1.streams = [] ++ ["/api/stream/" ++ "undefined"]
    ∧ (sendClick "Refund" "Order 7" [] (.response 200 (some (obj [("run_id", num 9007199254740993)])))
        ⟨⟨[], "", "", 0⟩, [], []⟩).1.streams = [] ++ ["/api/stream/" ++ "9007199254740992"] :=
  ⟨(failed_submission_shows_no_error "Refund" "Order 7" [] ⟨⟨[], "", "", 0⟩, [], []⟩
      (by decide) (by decide)).2.1,
    (failed_submission_shows_no_error "Refund" "Order 7" [] ⟨⟨[], "", "", 0⟩, [], []⟩
      (by decide) (by decide)).2.2.2.2.2 500 (obj [("detail", str "boom")]) "undefined" rfl,
    (failed_submission_shows_no_error "Refund" "Order 7" [] ⟨⟨[], "", "", 0⟩, [], []⟩
      (by decide) (by decide)).2.2.2.2.2 200 (obj [("run_id", num 9007199254740993)])
      "9007199254740992" (by rfl)⟩

/-- C13 (the claim as stated fails): after a rejected `fetch` the chat holds
the user bubble only, no assistant error bubble; and a response of status
500 with a JSON body opens the event stream `/api/stream/undefined`. -/
theorem failed_submission_counterexample :
    sendClick "Refund" "Order 7" [] .rejected ⟨⟨[], "", "", 0⟩, [], []⟩
      = (⟨⟨[⟨"user", "Subject: Refund\n\nOrder 7"⟩], "Starting workflow...", "0%", 1⟩,
          [⟨"/api/start", "POST",
            [("subject", FormValue.text "Refund"), ("body", FormValue.text "Order 7")]⟩],
          []⟩, some .typeError)
    ∧ sendClick "Refund" "Order 7" [] (.response 500 (some (obj [("detail", str "boom")])))
        ⟨⟨[], "", "", 0⟩, [], []⟩
      = (⟨⟨[⟨"user", "Subject: Refund\n\nOrder 7"⟩], "Starting workflow...", "0%", 1⟩,
          [⟨"/api/start", "POST",
            [("subject", FormValue.text "Refund"), ("body", FormValue.text "Order 7")]⟩],
          ["/api/stream/undefined"]⟩, none) := by
  constructor <;> decide

/-! ## Invariants of a run -/

theorem setStatus_chat (text : String) (progress : JsVal) (p : Page) :
    (setStatus text progress p).1.chat = p.chat := by
  simp only [setStatus]
  split
  · rfl
  · split <;> rfl

theorem setStatus_width (text : String) (progress : JsVal) (p : Page) :
    (setStatus text progress p).1.width = p.width
    ∨ ∃ n : Int, 0 ≤ n ∧ n ≤ 100 ∧ (setStatus text progress p).1.width = toString n ++ "%" := by
  simp only [setStatus]
  split
  · exact Or.inl rfl
  · split
    · exact Or.inl rfl
    · next n _ =>
      exact Or.inr ⟨max 0 (min 100 n), le_max_left _ _,
        max_le (by decide) (min_le_left _ _), rfl⟩

theorem onStatus_page (payload : Option JsVal) (r : Run) :
    (onStatus payload r).1.page = r.page
    ∨ ∃ text progress, (onStatus payload r).1.page = (setStatus text progress r.page).1 := by
  simp only [onStatus]
  split
  · exact Or.inl rfl
  · next text progress _ => exact Or.inr ⟨text, progress, rfl⟩

theorem onFinal_page (payload : Option JsVal) (r : Run) :
    (onFinal payload r).1.page = r.page
    ∨ ∃ text, (onFinal payload r).1.page
        = (setStatus "Done." (num 100) (addBubble "assistant" text r.page)).1 := by
  simp only [onFinal]
  split
  · exact Or.inl rfl
  · next text _ =>
    refine Or.inr ⟨text, ?_⟩
    rw [setStatus_num]

theorem onError_page (payload : Option JsVal) (r : Run) :
    (onError payload r).1.page = r.page
    ∨ ∃ text, (onError payload r).1.page
        = (setStatus "Failed." (num 0) (addBubble "assistant" text r.page)).1 := by
  cases h : errorText payload with
  | ok text =>
    refine Or.inr ⟨text, ?_⟩
    rw [onError_of_text payload text r h, setStatus_num]
    rfl
  | error f =>
    refine Or.inr ⟨"❌ Error: Streaming failed.", ?_⟩
    rw [onError_of_throw payload f r h, setStatus_num]
    rfl

theorem deliver_page (r : Run) (e : Event) :
    (deliver r e).1.page = r.page
    ∨ (∃ text progress, (deliver r e).1.page = (setStatus text progress r.page).1)
    ∨ ∃ text shown progress, (deliver r e).1.page
        = (setStatus shown progress (addBubble "assistant" text r.page)).1 := by
  simp only [deliver]
  split
  · exact Or.inl rfl
  · cases e with
    | status payload =>
      rcases onStatus_page payload r with h | h
      · exact Or.inl h
      · exact Or.inr (Or.inl h)
    | final payload =>
      rcases onFinal_page payload r with h | ⟨text, h⟩
      · exact Or.inl h
      · exact Or.inr (Or.inr ⟨text, _, _, h⟩)
    | error payload =>
      rcases onError_page payload r with h | ⟨text, h⟩
      · exact Or.inl h
      · exact Or.inr (Or.inr ⟨text, _, _, h⟩)

theorem deliver_width (r : Run) (e : Event)
    (h : ∃ n : Int, 0 ≤ n ∧ n ≤ 100 ∧ r.page.width = toString n ++ "%") :
    ∃ n : Int, 0 ≤ n ∧ n ≤ 100 ∧ (deliver r e).1.page.width = toString n ++ "%" := by
  rcases deliver_page r e with hp | ⟨text, progress, hp⟩ | ⟨text, shown, progress, hp⟩
  · rw [hp]
    exact h
  · rw [hp]
    rcases setStatus_width text progress r.page with hw | hw
    · rw [hw]
      exact h
    · exact hw
  · rw [hp]
    rcases setStatus_width shown progress (addBubble "assistant" text r.page) with hw | hw
    · rw [hw]
      exact h
    · exact hw

theorem feed_cons (r : Run) (e : Event) (rest : List Event) :
    feed r (e :: rest)
      = if (deliver r e).2 = some Fault.outside then none else feed (deliver r e).1 rest := by
  rw [feed]
  rcases deliver r e with ⟨next, fault⟩
  cases fault with
  | none => simp
  | some f => cases f <;> simp

theorem feed_width (es : List Event) (r last : Run) (hfeed : feed r es = some last)
    (h : ∃ n : Int, 0 ≤ n ∧ n ≤ 100 ∧ r.page.width = toString n ++ "%") :
    ∃ n : Int, 0 ≤ n ∧ n ≤ 100 ∧ last.page.width = toString n ++ "%" := by
  induction es generalizing r with
  | nil =>
    simp only [feed, Option.some.injEq] at hfeed
    subst hfeed
    exact h
  | cons e rest ih =>
    rw [feed_cons] at hfeed
    split at hfeed
    · cases hfeed
    · exact ih (deliver r e).1 hfeed (deliver_width r e h)

theorem feed_total (es : List Event) (r : Run)
    (h : ∀ e ∈ es, ∀ s : Run, (deliver s e).2 ≠ some Fault.outside) :
    ∃ last, feed r es = some last := by
  induction es generalizing r with
  | nil => exact ⟨r, rfl⟩
  | cons e rest ih =>
    have he := h e (List.mem_cons_self e rest) r
    obtain ⟨last, hlast⟩ := ih (deliver r e).1 (fun x hx => h x (List.mem_cons_of_mem e hx))
    refine ⟨last, ?_⟩
    rw [feed_cons, if_neg he]
    exact hlast

theorem deliver_numeric_status (message : String) (n : Int) (r : Run) :
    (deliver r (.status (some (obj [("message", str message), ("progress", num n)])))).2
      = none := by
  simp only [deliver]
  split
  · rfl
  · have hargs : statusArgs (some (obj [("message", str message), ("progress", num n)]))
        = .ok ("[" ++ "processing" ++ "] " ++ message, num n) := rfl
    simp only [onStatus, hargs, setStatus_num]

theorem deliver_not_outside (s : Run) (e : Event)
    (h : ∀ r : Run, (match e with
      | .status payload => onStatus payload r
      | .final payload => onFinal payload r
      | .error payload => onError payload r).2 ≠ some Fault.outside) :
    (deliver s e).2 ≠ some Fault.outside := by
  simp only [deliver]
  split
  · simp
  · exact h s

/-- C15: after a valid submission the progress bar shows `0%`, and after any
sequence of status, final and error events delivered to the run that the
submission opened, the width of the progress bar is `n%` for an integer
`n` with `0 ≤ n ≤ 100`. Every sequence whose events stay inside the embedded
fragment is processed to the end, and a status event with any integer
progress value stays inside it. -/
theorem progress_stays_within_bounds (subjectValue bodyValue : String) (files : List String)
    (reply : FetchReply) (w : Browser)
    (hsubject : trim subjectValue ≠ "") (hbody : trim bodyValue ≠ "") (es : List Event) :
    (sendClick subjectValue bodyValue files reply w).1.page.width = "0%"
    ∧ (∀ last : Run,
        feed ⟨(sendClick subjectValue bodyValue files reply w).1.page, false, 0⟩ es = some last →
        ∃ n : Int, 0 ≤ n ∧ n ≤ 100 ∧ last.page.width = toString n ++ "%")
    ∧ ((∀ e ∈ es, ∀ s : Run, (deliver s e).2 ≠ some Fault.outside) →
        ∃ last : Run,
          feed ⟨(sendClick subjectValue bodyValue files reply w).1.page, false, 0⟩ es = some last
          ∧ ∃ n : Int, 0 ≤ n ∧ n ≤ 100 ∧ last.page.width = toString n ++ "%")
    ∧ (∀ (message : String) (n : Int) (s : Run),
        (deliver s (.status (some (obj [("message", str message), ("progress", num n)])))).2
          ≠ some Fault.outside) := by
  have hwidth : (sendClick subjectValue bodyValue files reply w).1.page.width = "0%" := by
    rw [(sendClick_valid_chat subjectValue bodyValue files reply w hsubject hbody).1]
  have hstart : ∃ n : Int, 0 ≤ n ∧ n ≤ 100
      ∧ (⟨(sendClick subjectValue bodyValue files reply w).1.page, false, 0⟩ : Run).page.width
        = toString n ++ "%" :=
    ⟨0, le_refl _, by decide, by rw [hwidth]; decide⟩
  refine ⟨hwidth, ?_, ?_, ?_⟩
  · intro last hfeed
    exact feed_width es _ last hfeed hstart
  · intro hcovered
    obtain ⟨last, hfeed⟩ := feed_total es
      ⟨(sendClick subjectValue bodyValue files reply w).1.page, false, 0⟩ hcovered
    exact ⟨last, hfeed, feed_width es _ last hfeed hstart⟩
  · intro message n s
    rw [deliver_numeric_status]
    simp

theorem progress_stays_within_bounds_witness :
    ∃ last : Run,
      feed ⟨(sendClick "Refund" "Order 7" [] (.response 200 (some (obj [("run_id", str "r1")])))
            ⟨⟨[], "", "", 0⟩, [], []⟩).1.page, false, 0⟩
          [.status (some (obj [("message", str "a"), ("progress", num (-5))])),
            .status (some (obj [("message", str "b"), ("progress", num 150)])),
            .status none,
            .error (some (obj [("message", str "boom")])),
            .final none] = some last
      ∧ ∃ n : Int, 0 ≤ n ∧ n ≤ 100 ∧ last.page.width = toString n ++ "%" :=
  (progress_stays_within_bounds "Refund" "Order 7" []
    (.response 200 (some (obj [("run_id", str "r1")]))) ⟨⟨[], "", "", 0⟩, [], []⟩
    (by decide) (by decide)
    [.status (some (obj [("message", str "a"), ("progress", num (-5))])),
      .status (some (obj [("message", str "b"), ("progress", num 150)])),
      .status none,
      .error (some (obj [("message", str "boom")])),
      .final none]).2.2.1
    (by
      intro e he s
      simp only [List.mem_cons, List.mem_singleton, List.not_mem_nil, or_false] at he
      rcases he with rfl | rfl | rfl | rfl | rfl
      · rw [deliver_numeric_status]; simp
      · rw [deliver_numeric_status]; simp
      · exact deliver_not_outside s _ (fun r => by
          show (r, some Fault.syntaxError).2 ≠ some Fault.outside
          simp)
      · exact deliver_not_outside s _ (fun r => by
          show (onError (some (obj [("message", str "boom")])) r).2 ≠ some Fault.outside
          rw [onError_of_text (some (obj [("message", str "boom")])) "❌ Error: boom" r rfl]
          simp)
      · exact deliver_not_outside s _ (fun r => by
          show (r, some Fault.syntaxError).2 ≠ some Fault.outside
          simp))

theorem chat_extends (xs ys zs : List Bubble) (h1 : xs <+: ys) (h2 : ys <+: zs) : xs <+: zs := by
  obtain ⟨a, rfl⟩ := h1
  obtain ⟨b, rfl⟩ := h2
  exact ⟨a ++ b, by rw [List.append_assoc]⟩

theorem deliver_chat (r : Run) (e : Event) : r.page.chat <+: (deliver r e).1.page.chat := by
  rcases deliver_page r e with hp | ⟨text, progress, hp⟩ | ⟨text, shown, progress, hp⟩
  · rw [hp]
  · rw [hp, setStatus_chat]
  · rw [hp, setStatus_chat]
    exact ⟨[⟨"assistant", text⟩], rfl⟩

/-- C16: the conversation log only grows at its end. `addBubble` appends
exactly one entry and `setStatus` leaves the log alone; for the click
handler (validation failure or valid submission), for each of the three
listeners, for the dispatch of one event and for any sequence of events,
the log before the operation is an initial segment of the log after it, so
no bubble is edited, reordered or removed. -/
theorem chat_is_append_only :
    (∀ (role text : String) (p : Page), (addBubble role text p).chat = p.chat ++ [⟨role, text⟩])
    ∧ (∀ (text : String) (progress : JsVal) (p : Page),
        (setStatus text progress p).1.chat = p.chat)
    ∧ (∀ (subjectValue bodyValue : String) (files : List String) (reply : FetchReply)
        (w : Browser),
        w.page.chat <+: (sendClick subjectValue bodyValue files reply w).1.page.chat)
    ∧ (∀ (payload : Option JsVal) (r : Run), r.page.chat <+: (onStatus payload r).1.page.chat)
    ∧ (∀ (payload : Option JsVal) (r : Run), r.page.chat <+: (onFinal payload r).1.page.chat)
    ∧ (∀ (payload : Option JsVal) (r : Run), r.page.chat <+: (onError payload r).1.page.chat)
    ∧ (∀ (r : Run) (e : Event), r.page.chat <+: (deliver r e).1.page.chat)
    ∧ (∀ (es : List Event) (r last : Run), feed r es = some last →
        r.page.chat <+: last.page.chat) := by
  refine ⟨fun _ _ _ => rfl, setStatus_chat, ?_, ?_, ?_, ?_, deliver_chat, ?_⟩
  · intro subjectValue bodyValue files reply w
    by_cases hguard : trim subjectValue = "" ∨ trim bodyValue = ""
    · refine ⟨[⟨"assistant", "Please provide both subject and email body."⟩], ?_⟩
      simp only [sendClick, hguard, if_true, addBubble]
    · have hsubject : trim subjectValue ≠ "" := fun h => hguard (Or.inl h)
      have hbody : trim bodyValue ≠ "" := fun h => hguard (Or.inr h)
      rw [(sendClick_valid_chat subjectValue bodyValue files reply w hsubject hbody).1]
      exact ⟨_, rfl⟩
  · intro payload r
    rcases onStatus_page payload r with hp | ⟨text, progress, hp⟩
    · rw [hp]
    · rw [hp, setStatus_chat]
  · intro payload r
    rcases onFinal_page payload r with hp | ⟨text, hp⟩
    · rw [hp]
    · rw [hp, setStatus_chat]
      exact ⟨[⟨"assistant", text⟩], rfl⟩
  · intro payload r
    rcases onError_page payload r with hp | ⟨text, hp⟩
    · rw [hp]
    · rw [hp, setStatus_chat]
      exact ⟨[⟨"assistant", text⟩], rfl⟩
  · intro es
    induction es with
    | nil =>
      intro r last h
      simp only [feed, Option.some.injEq] at h
      subst h
      exact ⟨[], List.append_nil _⟩
    | cons e rest ih =>
      intro r last h
      rw [feed_cons] at h
      split at h
      · cases h
      · exact chat_extends _ _ _ (deliver_chat r e) (ih (deliver r e).1 last h)

theorem chat_is_append_only_witness :
    ([⟨"user", "Subject: Refund\n\nOrder 7"⟩] : List Bubble)
      <+: [⟨"user", "Subject: Refund\n\nOrder 7"⟩,
            ⟨"assistant", "❌ Error: Streaming failed."⟩] :=
  chat_is_append_only.2.2.2.2.2.2.2
    [.status (some (obj [("message", str "a"), ("progress", num 10)])), .error none, .final none]
    ⟨⟨[⟨"user", "Subject: Refund\n\nOrder 7"⟩], "Starting workflow...", "0%", 1⟩, false, 0⟩
    ⟨⟨[⟨"user", "Subject: Refund\n\nOrder 7"⟩, ⟨"assistant", "❌ Error: Streaming failed."⟩],
      "Failed.", "0%", 3⟩, true, 1⟩
    rfl

/-! ## The optional lists of the report -/

theorem listPieces_block (items : List JsVal) (header : Piece)
    (f : JsVal → Nat → Except Fault Piece) (ps : List Piece) (hne : items ≠ [])
    (h : listPieces (arr items) header f = .ok ps) :
    ∃ rendered, ps = header :: rendered ∧ rendered.length = items.length
      ∧ (∀ (k : Nat) (x : JsVal), items[k]? = some x →
          ∃ p, rendered[k]? = some p ∧ f x k = .ok p)
      ∧ ∀ p ∈ rendered, ∃ x k, f x k = .ok p := by
  obtain ⟨rendered, hrendered, rfl⟩ := listPieces_nonempty items header f ps hne h
  obtain ⟨hlen, hget⟩ := entries_getElem f items 0 rendered hrendered
  refine ⟨rendered, rfl, hlen, ?_, entries_mem f items 0 rendered hrendered⟩
  intro k x hk
  obtain ⟨p, hp, hf⟩ := hget k x hk
  rw [Nat.zero_add] at hf
  exact ⟨p, hp, hf⟩

theorem formatFinalPieces_sections (finalData : JsVal) (ps : List Piece)
    (hps : formatFinalPieces finalData = .ok ps) :
    ∃ cls c sales s support t,
      getProp finalData "classification" = .ok cls ∧ classificationPiece cls = .ok c
      ∧ getProp finalData "sales" = .ok sales ∧ salesPieces sales = .ok s
      ∧ getProp finalData "support" = .ok support ∧ supportPieces support = .ok t
      ∧ ps = c :: (s ++ t) := by
  simp only [formatFinalPieces, bind_eq_ok, pure_eq_ok, Except.ok.injEq] at hps
  obtain ⟨cls, h1, c, h2, sales, h3, s, h4, support, h5, t, h6, rfl⟩ := hps
  exact ⟨cls, c, sales, s, support, t, h1, h2, h3, h4, h5, h6, rfl⟩

theorem salesPieces_split (sales : JsVal) (s : List Piece) (hpresent : truthy sales = true)
    (hs : salesPieces sales = .ok s) :
    ∃ ticket message recs recPieces bundles bundlePieces questions questionPieces,
      field sales "ticket_id" = .ok ticket ∧ field sales "message_to_rep" = .ok message
      ∧ getProp sales "recommendations" = .ok recs
      ∧ listPieces recs .recommendationsHeader recommendationPiece = .ok recPieces
      ∧ getProp sales "bundles" = .ok bundles
      ∧ listPieces bundles .bundlesHeader bundlePiece = .ok bundlePieces
      ∧ getProp sales "follow_up_questions" = .ok questions
      ∧ listPieces questions .questionsHeader questionPiece = .ok questionPieces
      ∧ s = Piece.salesTicket ticket message :: (recPieces ++ bundlePieces ++ questionPieces) := by
  simp only [salesPieces, hpresent, if_true, bind_eq_ok, pure_eq_ok, Except.ok.injEq] at hs
  obtain ⟨ticket, h1, message, h2, recs, h3, recPieces, h4, bundles, h5, bundlePieces, h6,
    questions, h7, questionPieces, h8, rfl⟩ := hs
  exact ⟨ticket, message, recs, recPieces, bundles, bundlePieces, questions, questionPieces,
    h1, h2, h3, h4, h5, h6, h7, h8, rfl⟩

theorem supportPieces_split (support : JsVal) (t : List Piece)
    (hpresent : truthy support = true) (ht : supportPieces support = .ok t) :
    ∃ ticket message questions questionPieces,
      field support "ticket_id" = .ok ticket ∧ field support "message_to_rep" = .ok message
      ∧ getProp support "follow_up_questions" = .ok questions
      ∧ listPieces questions .questionsHeader questionPiece = .ok questionPieces
      ∧ t = Piece.supportTicket ticket message :: questionPieces := by
  simp only [supportPieces, hpresent, if_true, bind_eq_ok, pure_eq_ok, Except.ok.injEq] at ht
  obtain ⟨ticket, h1, message, h2, questions, h3, questionPieces, h4, rfl⟩ := ht
  exact ⟨ticket, message, questions, questionPieces, h1, h2, h3, h4, rfl⟩

theorem entry_ne_questionsHeader (x : JsVal) (k : Nat) :
    recommendationPiece x k ≠ .ok .questionsHeader ∧ bundlePiece x k ≠ .ok .questionsHeader
    ∧ questionPiece x k ≠ .ok .questionsHeader := by
  refine ⟨?_, ?_, ?_⟩
  · intro h
    obtain ⟨_, _, _, _, _, _, h1, _⟩ := recommendationPiece_shape x k _ h
    cases h1
  · intro h
    obtain ⟨_, _, _, _, _, h1, _⟩ := bundlePiece_shape x k _ h
    cases h1
  · intro h
    obtain ⟨_, h1, _⟩ := questionPiece_shape x k _ h
    cases h1

theorem entries_not_mem (f : JsVal → Nat → Except Fault Piece) (rendered : List Piece)
    (q : Piece) (hmem : ∀ p ∈ rendered, ∃ x k, f x k = .ok p) (hf : ∀ x k, f x k ≠ .ok q) :
    q ∉ rendered := by
  intro hq
  obtain ⟨x, k, hx⟩ := hmem q hq
  exact hf x k hx

/-- C17: in the output of `formatFinal`, which is the Classification text
followed by the Sales section `s` and the Support section `t`, every
optional list that is a non-empty array of `n` elements is rendered as its
sub-header followed by exactly `n` entries, in the order of the array, the
entry at position `k` (from zero) numbered `k + 1` and carrying the fields
of the element at position `k`. The Recommendations sub-header occurs once,
directly after the sales ticket line, and nowhere else in the report; the
Follow-up Questions sub-header occurs exactly once in the Sales section
for the questions of `sales`, and exactly once in the Support section for
the questions of `support`. -/
theorem lists_render_header_then_numbered_entries (finalData sales support : JsVal)
    (out : String) (hout : formatFinal finalData = .ok out)
    (hsales : getProp finalData "sales" = .ok sales)
    (hsupport : getProp finalData "support" = .ok support) :
    ∃ c s t,
      formatFinalPieces finalData = .ok (c :: (s ++ t))
      ∧ salesPieces sales = .ok s ∧ supportPieces support = .ok t
      ∧ out = c.text ++ render s ++ render t
      ∧ (∀ recs, truthy sales = true →
          getProp sales "recommendations" = .ok (arr recs) → recs ≠ [] →
          ∃ ticket message rendered post,
            s = Piece.salesTicket ticket message
              :: Piece.recommendationsHeader :: (rendered ++ post)
            ∧ Piece.recommendationsHeader ∉ rendered ∧ Piece.recommendationsHeader ∉ post
            ∧ Piece.recommendationsHeader ∉ t
            ∧ rendered.length = recs.length
            ∧ ∀ (k : Nat) (r : JsVal), recs[k]? = some r →
                ∃ name sku price purpose score reasoning,
                  rendered[k]? = some
                    (Piece.recommendation (k + 1) name sku price purpose score reasoning)
                  ∧ field r "name" = .ok name ∧ field r "sku" = .ok sku
                  ∧ field r "price_usd" = .ok price ∧ field r "purpose" = .ok purpose
                  ∧ field r "score" = .ok score ∧ field r "reasoning" = .ok reasoning)
      ∧ (∀ qs, truthy sales = true →
          getProp sales "follow_up_questions" = .ok (arr qs) → qs ≠ [] →
          ∃ pre rendered,
            s = pre ++ Piece.questionsHeader :: rendered
            ∧ Piece.questionsHeader ∉ pre ∧ Piece.questionsHeader ∉ rendered
            ∧ rendered.length = qs.length
            ∧ ∀ (k : Nat) (q : JsVal), qs[k]? = some q →
                ∃ text, rendered[k]? = some (Piece.question (k + 1) text)
                  ∧ toStr q = .ok text)
      ∧ (∀ qs, truthy support = true →
          getProp support "follow_up_questions" = .ok (arr qs) → qs ≠ [] →
          ∃ ticket message rendered,
            t = Piece.supportTicket ticket message :: Piece.questionsHeader :: rendered
            ∧ Piece.questionsHeader ∉ rendered
            ∧ rendered.length = qs.length
            ∧ ∀ (k : Nat) (q : JsVal), qs[k]? = some q →
                ∃ text, rendered[k]? = some (Piece.question (k + 1) text)
                  ∧ toStr q = .ok text) := by
  obtain ⟨ps, hps, rfl⟩ := formatFinal_ok finalData out hout
  obtain ⟨cls, c, sales0, s, support0, t, _, _, h3, hs, h5, ht, rfl⟩ :=
    formatFinalPieces_sections finalData ps hps
  rw [hsales] at h3
  cases h3
  rw [hsupport] at h5
  cases h5
  refine ⟨c, s, t, hps, hs, ht, ?_, ?_, ?_, ?_⟩
  · simp [render, render_append, String.append_assoc]
  · intro recs hpresent hrecs hne
    obtain ⟨ticket, message, recs0, recPieces, bundles, bundlePieces, questions,
      questionPieces, _, _, g3, g4, _, g6, _, g8, rfl⟩ := salesPieces_split sales s hpresent hs
    rw [hrecs] at g3
    cases g3
    obtain ⟨rendered, rfl, hlen, hget, hmem⟩ := listPieces_block recs _ _ _ hne g4
    refine ⟨ticket, message, rendered, bundlePieces ++ questionPieces, ?_, ?_, ?_,
      (supportPieces_not_mem support t ht).1, hlen, ?_⟩
    · simp [List.append_assoc]
    · exact entries_not_mem _ _ _ hmem (fun x k => (recommendationPiece_ne_header x k).1)
    · have hb := listPieces_not_mem _ _ _ _ g6 .recommendationsHeader (by decide)
        (fun x k => (bundlePiece_ne_header x k).1)
      have hq := listPieces_not_mem _ _ _ _ g8 .recommendationsHeader (by decide)
        (fun x k => (questionPiece_ne_header x k).1)
      simp [hb, hq]
    · intro k r hk
      obtain ⟨p, hp, hf⟩ := hget k r hk
      obtain ⟨name, sku, price, purpose, score, reasoning, rfl, e1, e2, e3, e4, e5, e6⟩ :=
        recommendationPiece_shape r k p hf
      exact ⟨name, sku, price, purpose, score, reasoning, hp, e1, e2, e3, e4, e5, e6⟩
  · intro qs hpresent hqs hne
    obtain ⟨ticket, message, recs, recPieces, bundles, bundlePieces, questions,
      questionPieces, _, _, _, g4, _, g6, g7, g8, rfl⟩ := salesPieces_split sales s hpresent hs
    rw [hqs] at g7
    cases g7
    obtain ⟨rendered, rfl, hlen, hget, hmem⟩ := listPieces_block qs _ _ _ hne g8
    refine ⟨Piece.salesTicket ticket message :: (recPieces ++ bundlePieces), rendered, ?_, ?_,
      ?_, hlen, ?_⟩
    · simp [List.append_assoc]
    · have hr := listPieces_not_mem _ _ _ _ g4 .questionsHeader (by decide)
        (fun x k => (entry_ne_questionsHeader x k).1)
      have hb := listPieces_not_mem _ _ _ _ g6 .questionsHeader (by decide)
        (fun x k => (entry_ne_questionsHeader x k).2.1)
      simp [hr, hb]
    · exact entries_not_mem _ _ _ hmem (fun x k => (entry_ne_questionsHeader x k).2.2)
    · intro k q hk
      obtain ⟨p, hp, hf⟩ := hget k q hk
      obtain ⟨text, rfl, e1⟩ := questionPiece_shape q k p hf
      exact ⟨text, hp, e1⟩
  · intro qs hpresent hqs hne
    obtain ⟨ticket, message, questions, questionPieces, _, _, g3, g4, rfl⟩ :=
      supportPieces_split support t hpresent ht
    rw [hqs] at g3
    cases g3
    obtain ⟨rendered, rfl, hlen, hget, hmem⟩ := listPieces_block qs _ _ _ hne g4
    refine ⟨ticket, message, rendered, rfl, ?_, hlen, ?_⟩
    · exact entries_not_mem _ _ _ hmem (fun x k => (entry_ne_questionsHeader x k).2.2)
    · intro k q hk
      obtain ⟨p, hp, hf⟩ := hget k q hk
      obtain ⟨text, rfl, e1⟩ := questionPiece_shape q k p hf
      exact ⟨text, hp, e1⟩


theorem lists_render_header_then_numbered_entries_witness :
    ∃ c s t,
      formatFinalPieces
        (obj [("classification", obj [("category", str "mixed"), ("intent", str "buy"),
              ("confidence", dec 87 (-2)), ("reasoning", str "two asks")]),
            ("sales", (obj [("ticket_id", str "S-3"), ("message_to_rep", str "Quote"),
                ("recommendations", arr [
                  obj [("name", str "Lamp"), ("sku", str "L1"), ("price_usd", dec 1999 (-2)),
                    ("purpose", str "light"), ("score", dec 87 (-2)), ("reasoning", str "fits")],
                  obj [("name", str "Desk"), ("sku", str "D2"), ("price_usd", dec 895 (-1)),
                    ("purpose", str "work"), ("score", dec 5 (-1)), ("reasoning", str "asked")]]),
                ("follow_up_questions", arr [str "Which colour?"])])),
            ("support", (obj [("ticket_id", str "H-4"), ("message_to_rep", str "Reset"),
                ("follow_up_questions", arr [str "Which model?", str "Since when?"])]))])
        = .ok (c :: (s ++ t))
      ∧ (∃ ticket message rendered post,
          s = Piece.salesTicket ticket message
            :: Piece.recommendationsHeader :: (rendered ++ post)
          ∧ rendered.length = 2)
      ∧ (∃ pre rendered, s = pre ++ Piece.questionsHeader :: rendered ∧ rendered.length = 1)
      ∧ (∃ ticket message rendered,
          t = Piece.supportTicket ticket message :: Piece.questionsHeader :: rendered
          ∧ rendered.length = 2) :=
  have ⟨c, s, t, h1, _, _, _, hrecs, hsalesq, hsupportq⟩ :=
    lists_render_header_then_numbered_entries
      (obj [("classification", obj [("category", str "mixed"), ("intent", str "buy"),
            ("confidence", dec 87 (-2)), ("reasoning", str "two asks")]),
          ("sales", (obj [("ticket_id", str "S-3"), ("message_to_rep", str "Quote"),
              ("recommendations", arr [
                obj [("name", str "Lamp"), ("sku", str "L1"), ("price_usd", dec 1999 (-2)),
                  ("purpose", str "light"), ("score", dec 87 (-2)), ("reasoning", str "fits")],
                obj [("name", str "Desk"), ("sku", str "D2"), ("price_usd", dec 895 (-1)),
                  ("purpose", str "work"), ("score", dec 5 (-1)), ("reasoning", str "asked")]]),
              ("follow_up_questions", arr [str "Which colour?"])])),
          ("support", (obj [("ticket_id", str "H-4"), ("message_to_rep", str "Reset"),
              ("follow_up_questions", arr [str "Which model?", str "Since when?"])]))])
      (obj [("ticket_id", str "S-3"), ("message_to_rep", str "Quote"),
            ("recommendations", arr [
              obj [("name", str "Lamp"), ("sku", str "L1"), ("price_usd", dec 1999 (-2)),
                ("purpose", str "light"), ("score", dec 87 (-2)), ("reasoning", str "fits")],
              obj [("name", str "Desk"), ("sku", str "D2"), ("price_usd", dec 895 (-1)),
                ("purpose", str "work"), ("score", dec 5 (-1)), ("reasoning", str "asked")]]),
            ("follow_up_questions", arr [str "Which colour?"])])
      (obj [("ticket_id", str "H-4"), ("message_to_rep", str "Reset"),
            ("follow_up_questions", arr [str "Which model?", str "Since when?"])])
      ("✅ Classification:\n- Category: mixed\n- Intent: buy\n- Confidence: 0.87\n"
          ++ "- Reasoning: two asks\n\n🧾 Sales Ticket: S-3\nQuote\n\n📦 Recommendations:\n"
          ++ "  1) Lamp (L1) - $19.99\n     Purpose: light\n     Score: 0.87\n     Reason: fits\n"
          ++ "  2) Desk (D2) - $89.5\n     Purpose: work\n     Score: 0.5\n     Reason: asked\n"
          ++ "\n❓ Follow-up Questions:\n  1) Which colour?\n"
          ++ "\n🛠 Support Ticket: H-4\nReset\n"
          ++ "\n❓ Follow-up Questions:\n  1) Which model?\n  2) Since when?\n")
      rfl rfl rfl
  have ⟨ticket, message, rendered, post, e1, _, _, _, e5, _⟩ :=
    hrecs [obj [("name", str "Lamp"), ("sku", str "L1"), ("price_usd", dec 1999 (-2)),
            ("purpose", str "light"), ("score", dec 87 (-2)), ("reasoning", str "fits")],
          obj [("name", str "Desk"), ("sku", str "D2"), ("price_usd", dec 895 (-1)),
            ("purpose", str "work"), ("score", dec 5 (-1)), ("reasoning", str "asked")]] rfl rfl (by simp)
  have ⟨pre, asked, f1, _, _, f4, _⟩ := hsalesq [str "Which colour?"] rfl rfl (by simp)
  have ⟨ticket2, message2, asked2, g1, _, g3, _⟩ :=
    hsupportq [str "Which model?", str "Since when?"] rfl rfl (by simp)
  ⟨c, s, t, h1, ⟨ticket, message, rendered, post, e1, e5⟩, ⟨pre, asked, f1, f4⟩,
    ⟨ticket2, message2, asked2, g1, g3⟩⟩

end ChatClient
